import Mathlib

/-!
Metadata syncer utilities (`pkg/syncer/util.go`)

A shallow embedding of the utility layer of the vSphere CSI metadata syncer:

* `HasMigratedToAnnotation`: the annotation transition detector,
* `getPVsInBoundAvailableOrReleased`, `getBoundPVs`: the volume state filters,
* `IsValidVolume`: the validity gate for a Pod volume,
* `getQueryResults`: the paginated walk over the CNS query API,
* `getPVCKey`: the object key resolver for watch-event payloads,
* `gcClusterID`: the cluster ID as the end-to-end harness
  (`tests/e2e/gc_metadata_syncer.go`) derives it.

Go values are embedded as follows.  A pointer is an `Option` (`none` is `nil`), a
`(value, error)` return is a pair whose second component is `none` for a nil
error, a nil-pointer dereference is the `Except.error` outcome of the function,
and the unbounded `for` loop of `getQueryResults` runs on fuel, `none` meaning
that the loop has not returned within the fuel given.
-/

namespace Syncer

/-! ## Go runtime values -/

/-- A Go `error` value (a non-nil one); a nil error is `none : Option GoError`. -/
structure GoError where
  message : String
deriving DecidableEq, Repr

/-- A run-time panic of the Go program. -/
inductive GoPanic where
  | nilDereference
deriving DecidableEq, Repr

/-- A Go `map[string]string`: `none` is the nil map, `some es` a map holding the
entries `es` (the first entry of a key is the one the map holds). -/
abbrev StringMap := Option (List (String × String))

/-- The comma-ok index expression `v, found := m[k]`; reading a nil map finds
nothing. -/
def StringMap.index (m : StringMap) (k : String) : String × Bool :=
  match m with
  | none => ("", false)
  | some es =>
    match es.lookup k with
    | some v => (v, true)
    | none => ("", false)

/-- The string `k` is a key of the map `m`. -/
def StringMap.HasKey (m : StringMap) (k : String) : Prop :=
  ∃ es v, m = some es ∧ (k, v) ∈ es

/-! ## Kubernetes objects (the fields the syncer reads) -/

/-- Go `v1.CSIPersistentVolumeSource`. -/
structure CSIPersistentVolumeSource where
  Driver : String
  VolumeHandle : String
deriving DecidableEq, Repr

/-- Go `v1.VsphereVirtualDiskVolumeSource`, the in-tree vSphere volume source. -/
structure VsphereVirtualDiskVolumeSource where
  VolumePath : String
deriving DecidableEq, Repr

/-- Go `v1.PersistentVolumePhase`, a string type. -/
abbrev PersistentVolumePhase := String

/-- Go `v1.VolumePending`. -/
def VolumePending : PersistentVolumePhase := "Pending"
/-- Go `v1.VolumeAvailable`. -/
def VolumeAvailable : PersistentVolumePhase := "Available"
/-- Go `v1.VolumeBound`. -/
def VolumeBound : PersistentVolumePhase := "Bound"
/-- Go `v1.VolumeReleased`. -/
def VolumeReleased : PersistentVolumePhase := "Released"
/-- Go `v1.VolumeFailed`. -/
def VolumeFailed : PersistentVolumePhase := "Failed"

/-- Go `v1.PersistentVolumeSpec`: both volume sources are pointers. -/
structure PersistentVolumeSpec where
  CSI : Option CSIPersistentVolumeSource
  VsphereVolume : Option VsphereVirtualDiskVolumeSource
deriving DecidableEq, Repr

/-- Go `v1.PersistentVolumeStatus`. -/
structure PersistentVolumeStatus where
  Phase : PersistentVolumePhase
deriving DecidableEq, Repr

/-- Go `v1.PersistentVolume`. -/
structure PersistentVolume where
  Name : String
  Spec : PersistentVolumeSpec
  Status : PersistentVolumeStatus
deriving DecidableEq, Repr

/-- Go `v1.PersistentVolumeClaimSpec`. -/
structure PersistentVolumeClaimSpec where
  VolumeName : String
deriving DecidableEq, Repr

/-- Go `v1.PersistentVolumeClaim`. -/
structure PersistentVolumeClaim where
  Name : String
  Namespace : String
  Spec : PersistentVolumeClaimSpec
deriving DecidableEq, Repr

/-- Go `v1.PersistentVolumeClaimVolumeSource`. -/
structure PersistentVolumeClaimVolumeSource where
  ClaimName : String
deriving DecidableEq, Repr

/-- Go `v1.Volume`: the claim source is a pointer, nil for a volume that is not
a PVC volume. -/
structure Volume where
  Name : String
  PersistentVolumeClaim : Option PersistentVolumeClaimVolumeSource
deriving DecidableEq, Repr

/-- Go `v1.Pod`. -/
structure Pod where
  Name : String
  Namespace : String
deriving DecidableEq, Repr

/-! ## Collaborators -/

/-- The PV cache: `List` is the answer to `List(labels.Everything())`, `Get` the
answer to `Get(name)`, each a Go `(value, error)` pair. -/
structure PersistentVolumeLister where
  List : List PersistentVolume × Option GoError
  Get : String → Option PersistentVolume × Option GoError

/-- The PVC cache: `Get ns name` is the answer to
`PersistentVolumeClaims(ns).Get(name)`. -/
structure PersistentVolumeClaimLister where
  Get : String → String → Option PersistentVolumeClaim × Option GoError

/-- Modelled from the spec: the `metadataSyncInformer` type is declared outside
`util.go`; it carries the two object caches and the configuration, of which
`util.go` reads `configInfo.Cfg.FeatureStates.CSIMigration`, the
migration-feature flag. -/
structure metadataSyncInformer where
  pvLister : PersistentVolumeLister
  pvcLister : PersistentVolumeClaimLister
  CSIMigration : Bool

/-! ## `HasMigratedToAnnotation` -/

/-- `HasMigratedToAnnotation` of `util.go`; the key `common.AnnMigratedTo` is a
parameter. -/
def HasMigratedToAnnotation (AnnMigratedTo : String)
    (prevAnnotations newAnnotations : StringMap) : Bool :=
  if (newAnnotations.index AnnMigratedTo).2 then
    if !(prevAnnotations.index AnnMigratedTo).2 then
      true
    else
      false
  else
    false

/-! ## The volume state filters -/

/-- The test `pv.Spec.CSI != nil && pv.Spec.CSI.Driver == csitypes.Name`. -/
def isDriverCSI (driverName : String) (pv : PersistentVolume) : Bool :=
  match pv.Spec.CSI with
  | none => false
  | some csi => csi.Driver == driverName

/-- `getPVsInBoundAvailableOrReleased` of `util.go`; `csitypes.Name` is the
parameter `driverName`.  The `for ... range` loop is a left fold appending to
`pvsInDesiredState`. -/
def getPVsInBoundAvailableOrReleased (driverName : String)
    (metadataSyncer : metadataSyncInformer) : List PersistentVolume × Option GoError :=
  match metadataSyncer.pvLister.List with
  | (_, some err) => ([], some err)
  | (allPVs, none) =>
    (allPVs.foldl (fun pvsInDesiredState pv =>
        if isDriverCSI driverName pv then
          if pv.Status.Phase == VolumeBound || pv.Status.Phase == VolumeAvailable
              || pv.Status.Phase == VolumeReleased then
            pvsInDesiredState ++ [pv]
          else pvsInDesiredState
        else pvsInDesiredState) [], none)

/-- `getBoundPVs` of `util.go`. -/
def getBoundPVs (driverName : String)
    (metadataSyncer : metadataSyncInformer) : List PersistentVolume × Option GoError :=
  match metadataSyncer.pvLister.List with
  | (_, some err) => ([], some err)
  | (allPVs, none) =>
    (allPVs.foldl (fun boundPVs pv =>
        if isDriverCSI driverName pv then
          if pv.Status.Phase == VolumeBound then
            boundPVs ++ [pv]
          else boundPVs
        else boundPVs) [], none)

/-! ## `IsValidVolume` -/

/-- `IsValidVolume` of `util.go`.  The reads `volume.PersistentVolumeClaim.ClaimName`,
`pod.Namespace`, `pvc.Spec.VolumeName` and `pv.Spec` dereference pointers and
panic on nil. -/
def IsValidVolume (driverName : String) (volume : Volume) (pod : Option Pod)
    (metadataSyncer : metadataSyncInformer) :
    Except GoPanic (Bool × Option PersistentVolume × Option PersistentVolumeClaim) :=
  match volume.PersistentVolumeClaim with
  | none => .error .nilDereference
  | some claim =>
    let pvcName := claim.ClaimName
    match pod with
    | none => .error .nilDereference
    | some p =>
      match metadataSyncer.pvcLister.Get p.Namespace pvcName with
      | (_, some _) => .ok (false, none, none)
      | (none, none) => .error .nilDereference
      | (some pvc, none) =>
        match metadataSyncer.pvLister.Get pvc.Spec.VolumeName with
        | (_, some _) => .ok (false, none, none)
        | (none, none) => .error .nilDereference
        | (some pv, none) =>
          if (!isDriverCSI driverName pv)
              && (metadataSyncer.CSIMigration && pv.Spec.VsphereVolume.isNone) then
            .ok (false, none, none)
          else if pv.Spec.VsphereVolume.isSome && !metadataSyncer.CSIMigration then
            .ok (false, none, none)
          else
            .ok (true, some pv, some pvc)

/-! ## CNS query types -/

/-- Go `cnstypes.CnsVolumeId`. -/
structure CnsVolumeId where
  Id : String
deriving DecidableEq, Repr

/-- Go `cnstypes.CnsVolume`, a volume record of the backend. -/
structure CnsVolume where
  VolumeId : CnsVolumeId
  Name : String
deriving DecidableEq, Repr

/-- Go `cnstypes.CnsCursor`; the three fields are `int64`, on which the walk
performs comparisons only. -/
structure CnsCursor where
  Offset : Int
  Limit : Int
  TotalRecords : Int
deriving DecidableEq, Repr

/-- Go `cnstypes.CnsQueryFilter`, with the fields `getQueryResults` sets.  A nil
slice is the empty list; `Cursor` is the value the filter's cursor pointer
points to (the walk never leaves the pointer nil). -/
structure CnsQueryFilter where
  VolumeIds : List CnsVolumeId
  ContainerClusterIds : List String
  Cursor : CnsCursor
deriving DecidableEq, Repr

/-- Go `cnstypes.CnsQueryResult`. -/
structure CnsQueryResult where
  Volumes : List CnsVolume
  Cursor : CnsCursor
deriving DecidableEq, Repr

/-- Modelled from the spec: the backend query client `volumes.Manager` is declared
outside `util.go`; `QueryVolume` answers a filter with a Go
`(*CnsQueryResult, error)` pair.  The backend has a state of type `σ` that a
query may change. -/
structure Manager (σ : Type) where
  QueryVolume : σ → CnsQueryFilter → (Option CnsQueryResult × Option GoError) × σ

/-- What a returned call of `getQueryResults` leaves behind: the two return
values `results` and `err`, the requests issued to the backend in order, and
the backend's state after the last request. -/
structure Walk (σ : Type) where
  results : List CnsQueryResult
  err : Option GoError
  requests : List CnsQueryFilter
  backend : σ

/-! ## `getQueryResults` -/

/-- The `queryFilter` that `getQueryResults` builds before its loop; the constant
`queryVolumeLimit` is a parameter. -/
def initialQueryFilter (queryVolumeLimit : Int) (volumeIds : List CnsVolumeId)
    (clusterID : String) : CnsQueryFilter :=
  let queryFilter : CnsQueryFilter :=
    { VolumeIds := volumeIds
      ContainerClusterIds := []
      Cursor := { Offset := 0, Limit := queryVolumeLimit, TotalRecords := 0 } }
  if clusterID ≠ "" then
    { queryFilter with ContainerClusterIds := [clusterID] }
  else
    queryFilter

/-- The `for` loop of `getQueryResults`, one iteration per unit of fuel, from
backend state `s` with the loop variables `queryFilter` and `allQueryResults`;
`issued` records the requests made so far. -/
def getQueryResultsLoop {σ : Type} (volumeManager : Manager σ) :
    Nat → σ → CnsQueryFilter → List CnsQueryResult → List CnsQueryFilter → Option (Walk σ)
  | 0, _, _, _, _ => none
  | fuel + 1, s, queryFilter, allQueryResults, issued =>
    match volumeManager.QueryVolume s queryFilter with
    | ((_, some err), s1) =>
      some { results := [], err := some err, requests := issued ++ [queryFilter], backend := s1 }
    | ((none, none), s1) =>
      some { results := allQueryResults, err := none, requests := issued ++ [queryFilter],
             backend := s1 }
    | ((some queryResult, none), s1) =>
      if queryResult.Cursor.Offset = queryResult.Cursor.TotalRecords then
        some { results := allQueryResults ++ [queryResult], err := none,
               requests := issued ++ [queryFilter], backend := s1 }
      else
        getQueryResultsLoop volumeManager fuel s1
          { queryFilter with Cursor := queryResult.Cursor }
          (allQueryResults ++ [queryResult]) (issued ++ [queryFilter])

/-- `getQueryResults` of `util.go`, run on `fuel` loop iterations against a
backend in state `s`. -/
def getQueryResults {σ : Type} (queryVolumeLimit : Int) (fuel : Nat)
    (volumeIds : List CnsVolumeId) (clusterID : String)
    (volumeManager : Manager σ) (s : σ) : Option (Walk σ) :=
  getQueryResultsLoop volumeManager fuel s
    (initialQueryFilter queryVolumeLimit volumeIds clusterID) [] []

/-- Where a run of the `for` loop of `getQueryResults` stands after a number of
iterations: it has returned the walk `w`, or it is at the head of its next
iteration, having issued the requests `issued` and holding the loop variables
`allQueryResults` and `queryFilter`, with the backend in state `s`. -/
inductive Run (σ : Type) where
  | returned (w : Walk σ)
  | running (issued : List CnsQueryFilter) (allQueryResults : List CnsQueryResult)
      (queryFilter : CnsQueryFilter) (s : σ)

/-- The walk a run has returned, if it has. -/
def Run.returned? {σ : Type} : Run σ → Option (Walk σ)
  | .returned w => some w
  | .running _ _ _ _ => none

/-- The `for` loop of `getQueryResults` observed after `fuel` iterations: the same
body as `getQueryResultsLoop`, one iteration per unit of fuel, except that when
the iterations are used up the loop's position is reported instead of being
dropped. -/
def getQueryResultsRun {σ : Type} (volumeManager : Manager σ) :
    Nat → σ → CnsQueryFilter → List CnsQueryResult → List CnsQueryFilter → Run σ
  | 0, s, queryFilter, allQueryResults, issued =>
    .running issued allQueryResults queryFilter s
  | fuel + 1, s, queryFilter, allQueryResults, issued =>
    match volumeManager.QueryVolume s queryFilter with
    | ((_, some err), s1) =>
      .returned { results := [], err := some err, requests := issued ++ [queryFilter],
                  backend := s1 }
    | ((none, none), s1) =>
      .returned { results := allQueryResults, err := none,
                  requests := issued ++ [queryFilter], backend := s1 }
    | ((some queryResult, none), s1) =>
      if queryResult.Cursor.Offset = queryResult.Cursor.TotalRecords then
        .returned { results := allQueryResults ++ [queryResult], err := none,
                    requests := issued ++ [queryFilter], backend := s1 }
      else
        getQueryResultsRun volumeManager fuel s1
          { queryFilter with Cursor := queryResult.Cursor }
          (allQueryResults ++ [queryResult]) (issued ++ [queryFilter])

/-- `getQueryResults` of `util.go` observed after `fuel` iterations of its loop. -/
def getQueryResultsTraced {σ : Type} (queryVolumeLimit : Int) (fuel : Nat)
    (volumeIds : List CnsVolumeId) (clusterID : String)
    (volumeManager : Manager σ) (s : σ) : Run σ :=
  getQueryResultsRun volumeManager fuel s
    (initialQueryFilter queryVolumeLimit volumeIds clusterID) [] []

/-! ## Backend behaviours the pagination properties are stated over -/

/-- The page a backend holding `records` returns for offset `n` and limit `L`:
the records `[n, min (n+L) T)` and the cursor `{min (n+L) T, L, T}`, where `T` is
the number of records. -/
def pageResult (records : List CnsVolume) (n L : Nat) : CnsQueryResult :=
  { Volumes := (records.drop n).take L
    Cursor := { Offset := ((min (n + L) records.length : Nat) : Int)
                Limit := (L : Int)
                TotalRecords := (records.length : Int) } }

/-- The backend `volumeManager` holds `records` as the volumes matching the
filter `f0`: in every state it answers the filter with cursor offset `n` (at
most the number of records) and limit `L` by `pageResult records n L` and no
error. -/
def PagedBackend {σ : Type} (volumeManager : Manager σ) (f0 : CnsQueryFilter)
    (records : List CnsVolume) (L : Nat) : Prop :=
  ∀ (s : σ) (n : Nat) (c : CnsCursor), n ≤ records.length → c.Offset = (n : Int) →
    c.Limit = (L : Int) →
    ∃ s1, volumeManager.QueryVolume s { f0 with Cursor := c }
      = ((some (pageResult records n L), none), s1)

/-- A stateless backend that holds `records` and pages through them. -/
def pagedManager (records : List CnsVolume) : Manager Unit where
  QueryVolume := fun s f =>
    ((some (pageResult records f.Cursor.Offset.toNat f.Cursor.Limit.toNat), none), s)

/-- The walk's first queries: from backend state `s` and filter `f`, the queries
succeed one after the other with the non-nil results `rs`, none of which ends
the walk (returned offset different from `TotalRecords`), each carrying its
cursor into the next request; `sk` and `fk` are the backend state and the filter
of the query after them. -/
inductive ContinuingPrefix {σ : Type} (volumeManager : Manager σ) :
    σ → CnsQueryFilter → List CnsQueryResult → σ → CnsQueryFilter → Prop where
  | done (s : σ) (f : CnsQueryFilter) : ContinuingPrefix volumeManager s f [] s f
  | step {s s1 sk : σ} {f fk : CnsQueryFilter} {r : CnsQueryResult}
      {rs : List CnsQueryResult}
      (hq : volumeManager.QueryVolume s f = ((some r, none), s1))
      (hne : r.Cursor.Offset ≠ r.Cursor.TotalRecords)
      (hrest : ContinuingPrefix volumeManager s1 { f with Cursor := r.Cursor } rs sk fk) :
      ContinuingPrefix volumeManager s f (r :: rs) sk fk

/-- The requests that the results `rs` were the answers to, in a walk whose first
request is `f`: `f`, then `f` with the cursor of each result but the last. -/
def prefixRequests (f : CnsQueryFilter) : List CnsQueryResult → List CnsQueryFilter
  | [] => []
  | r :: rs => f :: prefixRequests { f with Cursor := r.Cursor } rs

/-- A backend that counts the queries it has answered: it pages through `records`
and fails the query numbered `failAt` (counting from 0). -/
def flakyManager (records : List CnsVolume) (failAt : Nat) : Manager Nat where
  QueryVolume := fun n f =>
    if n = failAt then
      ((none, some { message := "ServerFaultCode: query failed" }), n + 1)
    else
      ((some (pageResult records f.Cursor.Offset.toNat f.Cursor.Limit.toNat), none), n + 1)

/-- A backend that answers the query numbered `n` (counting from 0) with the
`n`-th entry of `script`, whatever the filter, and with a nil result and a nil
error once the script is used up. -/
def scriptedManager (script : List (Option CnsQueryResult × Option GoError)) :
    Manager Nat where
  QueryVolume := fun n _ => (script.getD n (none, none), n + 1)

/-- A stateless backend that holds `records` and refuses the cursors it cannot
serve: it pages through the records for an offset in `[0, T)` and a positive
limit, and fails every other query. -/
def strictManager (records : List CnsVolume) : Manager Unit where
  QueryVolume := fun s f =>
    if 0 ≤ f.Cursor.Offset ∧ f.Cursor.Offset < (records.length : Int)
        ∧ 0 < f.Cursor.Limit then
      ((some (pageResult records f.Cursor.Offset.toNat f.Cursor.Limit.toNat), none), s)
    else
      ((none, some { message := "InvalidArgument: cursor out of range" }), s)

/-- The offsets of the requests `qs` never decrease along the list, and no
request carries a cursor whose offset exceeds the `TotalRecords` it carries. -/
def OffsetsInOrder (qs : List CnsQueryFilter) : Prop :=
  List.Pairwise (fun a b => a ≤ b) (qs.map (fun q => q.Cursor.Offset))
  ∧ ∀ q ∈ qs, q.Cursor.Offset ≤ q.Cursor.TotalRecords

/-- A stateless backend that never advances: it answers every query with an empty
page and the cursor `{0, 2, 7}`, whose offset never reaches `TotalRecords`. -/
def stuckManager : Manager Unit where
  QueryVolume := fun s _ =>
    ((some { Volumes := [], Cursor := { Offset := 0, Limit := 2, TotalRecords := 7 } }, none), s)

/-- The single filter that the two volume state filters are instances of, as the
design notes word it: keep the PVs with a CSI spec of this driver whose phase is
in the set `allowed`. -/
def filterByPhase (driverName : String) (allowed : List PersistentVolumePhase)
    (allPVs : List PersistentVolume) : List PersistentVolume :=
  allPVs.filter (fun pv => isDriverCSI driverName pv && allowed.contains pv.Status.Phase)

/-! ## Watch-event payloads and `getPVCKey` -/

/-- The metadata of an API object that the key functions read. -/
structure ObjectMeta where
  Name : String
  Namespace : String
deriving DecidableEq, Repr

/-- The dynamic value of the `obj interface{}` argument of `getPVCKey`: the nil
interface, an API object carrying metadata, a `cache.ExplicitKey`, a
`cache.DeletedFinalStateUnknown{Key, Obj}` tombstone, or any other Go value
(one without object metadata). -/
inductive WatchPayload where
  | nil
  | object (meta : ObjectMeta)
  | explicitKey (key : String)
  | tombstone (Key : String) (Obj : WatchPayload)
  | other (description : String)
deriving DecidableEq, Repr

/-- The library function `cache.MetaNamespaceKeyFunc` of `k8s.io/client-go`, which
`util.go` imports: an explicit key is returned as it is; an object with metadata
gives `namespace/name`, or `name` alone when the namespace is empty; anything
else has no metadata and gives an error. -/
def MetaNamespaceKeyFunc (obj : WatchPayload) : String × Option GoError :=
  match obj with
  | .explicitKey key => (key, none)
  | .object m =>
    if m.Namespace ≠ "" then (m.Namespace ++ "/" ++ m.Name, none) else (m.Name, none)
  | _ => ("", some { message := "object has no meta: object does not implement the Object interfaces" })

/-- The library function `cache.DeletionHandlingMetaNamespaceKeyFunc` of
`k8s.io/client-go`: a tombstone gives its stored `Key` and no error, every other
value goes to `MetaNamespaceKeyFunc`. -/
def DeletionHandlingMetaNamespaceKeyFunc (obj : WatchPayload) : String × Option GoError :=
  match obj with
  | .tombstone key _ => (key, none)
  | o => MetaNamespaceKeyFunc o

/-- `getPVCKey` of `util.go`: a tombstone whose wrapped object is not nil is
replaced by that object before the key function is called. -/
def getPVCKey (obj : WatchPayload) : String × Option GoError :=
  let resolved : WatchPayload :=
    match obj with
    | .tombstone _ .nil => obj
    | .tombstone _ wrapped => wrapped
    | o => o
  match DeletionHandlingMetaNamespaceKeyFunc resolved with
  | (_, some err) => ("", some err)
  | (objKey, none) => (objKey, none)

/-! ## The cluster ID of the end-to-end harness -/

/-- The scan of `strings.Replace(s, old, "", -1)` for a non-empty `old`, on the
characters of `s`, one unit of fuel per step: where `old` starts, it is skipped;
elsewhere one character is kept.  Occurrences are taken leftmost first and do
not overlap. -/
def removeAllAux (old : List Char) : Nat → List Char → List Char
  | 0, s => s
  | _ + 1, [] => []
  | fuel + 1, c :: cs =>
    if old.isPrefixOf (c :: cs) then
      removeAllAux old fuel ((c :: cs).drop old.length)
    else
      c :: removeAllAux old fuel cs

/-- Go `strings.Replace(s, old, "", -1)`: every non-overlapping occurrence of `old`
in `s` is deleted; with an empty `old` the old and the new string are equal and
`s` is returned as it is. -/
def stringsRemoveAll (s old : String) : String :=
  if old = "" then s else String.mk (removeAllAux old.data s.data.length s.data)

/-- The cluster ID as the harness `gc_metadata_syncer.go` derives it:
`gcClusterID = strings.Replace(svcPVCName, pvcUID, "", -1)`. -/
def gcClusterID (svcPVCName pvcUID : String) : String :=
  stringsRemoveAll svcPVCName pvcUID

/-! ## Example objects -/

/-- A driver name for the examples. -/
def exDriver : String := "csi.vsphere.vmware.com"

/-- A PV with the given volume sources and phase. -/
def exPV (name : String) (csi : Option String) (inTree : Bool)
    (phase : PersistentVolumePhase) : PersistentVolume :=
  { Name := name
    Spec := { CSI := csi.map (fun d => { Driver := d, VolumeHandle := name ++ "-handle" })
              VsphereVolume := if inTree then some { VolumePath := "[ds] " ++ name } else none }
    Status := { Phase := phase } }

/-- The PVs of the example cache: CSI volumes of this driver in each phase, a
bound CSI volume of another driver, a bound in-tree vSphere volume, a bound
volume of neither kind, and a bound volume carrying both sources. -/
def exPVs : List PersistentVolume :=
  [ exPV "pv-bound" (some exDriver) false VolumeBound,
    exPV "pv-pending" (some exDriver) false VolumePending,
    exPV "pv-available" (some exDriver) false VolumeAvailable,
    exPV "pv-other" (some "ebs.csi.aws.com") false VolumeBound,
    exPV "pv-released" (some exDriver) false VolumeReleased,
    exPV "pv-failed" (some exDriver) false VolumeFailed,
    exPV "pv-intree" none true VolumeBound,
    exPV "pv-nfs" none false VolumeBound,
    exPV "pv-dual" (some exDriver) true VolumeBound ]

/-- The example PV cache: lists `exPVs` and finds a PV by name. -/
def exPVLister : PersistentVolumeLister where
  List := (exPVs, none)
  Get := fun name =>
    match exPVs.find? (fun pv => pv.Name == name) with
    | some pv => (some pv, none)
    | none => (none, some { message := "persistentvolume not found" })

/-- The claims of the example namespace `ns`, each with the name of the PV it is
bound to; `claim-lost` is bound to a PV that is not in the cache. -/
def exClaims : List (String × String) :=
  [ ("claim-bound", "pv-bound"), ("claim-other", "pv-other"), ("claim-intree", "pv-intree"),
    ("claim-nfs", "pv-nfs"), ("claim-dual", "pv-dual"), ("claim-lost", "pv-lost") ]

/-- The example PVC `name` of namespace `ns`, bound to the PV `pvName`. -/
def exPVC (name pvName : String) : PersistentVolumeClaim :=
  { Name := name, Namespace := "ns", Spec := { VolumeName := pvName } }

/-- The example PVC cache: finds the claims of `exClaims` in namespace `ns`. -/
def exPVCLister : PersistentVolumeClaimLister where
  Get := fun ns name =>
    if ns = "ns" then
      match exClaims.lookup name with
      | some pvName => (some (exPVC name pvName), none)
      | none => (none, some { message := "persistentvolumeclaim not found" })
    else
      (none, some { message := "persistentvolumeclaim not found" })

/-- The example syncer with the migration flag as given. -/
def exSyncer (migration : Bool) : metadataSyncInformer :=
  { pvLister := exPVLister, pvcLister := exPVCLister, CSIMigration := migration }

/-- The example Pod. -/
def exPod : Pod := { Name := "pod", Namespace := "ns" }

/-- The example Pod volume that mounts the claim `claim`. -/
def exVolume (claim : String) : Volume :=
  { Name := "vol", PersistentVolumeClaim := some { ClaimName := claim } }

/-- Five volume records for the examples. -/
def exRecords : List CnsVolume :=
  [ { VolumeId := { Id := "vol-0" }, Name := "pvc-0" },
    { VolumeId := { Id := "vol-1" }, Name := "pvc-1" },
    { VolumeId := { Id := "vol-2" }, Name := "pvc-2" },
    { VolumeId := { Id := "vol-3" }, Name := "pvc-3" },
    { VolumeId := { Id := "vol-4" }, Name := "pvc-4" } ]

/-- The example backend content of 250 volume records, all distinct. -/
def exRecords250 : List CnsVolume :=
  (List.range 250).map
    (fun i => { VolumeId := { Id := "vol-" ++ toString i }, Name := "pvc-" ++ toString i })

/-- An example syncer whose PV cache listing fails. -/
def exFailingSyncer : metadataSyncInformer :=
  { pvLister := { List := ([], some { message := "cache not synced" })
                  Get := fun _ => (none, some { message := "cache not synced" }) }
    pvcLister := exPVCLister
    CSIMigration := true }

/-- An example history of one object's annotations: the marker `migrated-to`
appears at the third snapshot and stays. -/
def exSnapshots (i : Nat) : StringMap :=
  if i < 2 then some [("owner", "team-a")]
  else some [("owner", "team-a"), ("migrated-to", "csi")]

/-- A script of two continuing pages of `exRecords`, page size 2. -/
def exScript : List (Option CnsQueryResult × Option GoError) :=
  [ (some (pageResult exRecords 0 2), none), (some (pageResult exRecords 2 2), none) ]

/-- A script whose returned cursors move backwards (5, then 3) and overshoot the
reported total (12 of 9) before the walk is ended by offset 9 of 9. -/
def exWildScript : List (Option CnsQueryResult × Option GoError) :=
  [ (some { Volumes := [], Cursor := { Offset := 5, Limit := 2, TotalRecords := 9 } }, none),
    (some { Volumes := [], Cursor := { Offset := 3, Limit := 2, TotalRecords := 9 } }, none),
    (some { Volumes := [], Cursor := { Offset := 12, Limit := 2, TotalRecords := 9 } }, none),
    (some { Volumes := [], Cursor := { Offset := 9, Limit := 2, TotalRecords := 9 } }, none) ]

/-! ## Lemmas on the embedding -/

theorem StringMap.index_found_iff (m : StringMap) (k : String) :
    (m.index k).2 = true ↔ m.HasKey k := by
  cases m with
  | none => simp [StringMap.index, StringMap.HasKey]
  | some es =>
    have key : ∀ l : List (String × String),
        (∃ v, l.lookup k = some v) ↔ ∃ v, (k, v) ∈ l := by
      intro l
      induction l with
      | nil => simp
      | cons hd tl ih =>
        obtain ⟨a, b⟩ := hd
        by_cases hka : k = a
        · subst hka
          simp [List.lookup]
        · have hbeq : (k == a) = false := by simpa using hka
          simp only [List.lookup, hbeq, List.mem_cons, Prod.mk.injEq, hka, false_and, false_or]
          exact ih
    have hk := key es
    unfold StringMap.index StringMap.HasKey
    cases hl : es.lookup k with
    | none =>
      simp only [hl, Bool.false_eq_true, false_iff]
      rintro ⟨es1, v, h1, h2⟩
      cases h1
      have := hk.2 ⟨v, h2⟩
      simp [hl] at this
    | some v =>
      simp only [hl, true_iff]
      obtain ⟨w, hw⟩ := hk.1 ⟨v, hl⟩
      exact ⟨es, w, rfl, hw⟩

theorem foldl_select {α : Type} (a b : α → Bool) (l acc : List α) :
    l.foldl (fun acc x => if a x then (if b x then acc ++ [x] else acc) else acc) acc
      = acc ++ l.filter (fun x => a x && b x) := by
  induction l generalizing acc with
  | nil => simp
  | cons x xs ih =>
    simp only [List.foldl_cons, ih, List.filter_cons]
    cases a x <;> cases b x <;> simp

theorem isDriverCSI_iff (driverName : String) (pv : PersistentVolume) :
    isDriverCSI driverName pv = true ↔
      ∃ csi, pv.Spec.CSI = some csi ∧ csi.Driver = driverName := by
  unfold isDriverCSI
  cases h : pv.Spec.CSI with
  | none => simp
  | some csi => simp

/-! ## The annotation transition detector -/

/-- C1: `HasMigratedToAnnotation prev new` is true exactly when the migration-marker
key is a key of `new` and not a key of `prev`, for all maps, nil maps included; it
is false when the key is in both maps and when it is absent from `new`; on the
three sample pairs it answers true, false, false. -/
theorem hasMigratedTo_iff :
    (∀ (AnnMigratedTo : String) (prev new : StringMap),
      ( HasMigratedToAnnotation AnnMigratedTo prev new = true ↔
        new.HasKey AnnMigratedTo ∧ ¬ prev.HasKey AnnMigratedTo)
      ∧ (new.HasKey AnnMigratedTo → prev.HasKey AnnMigratedTo →
          HasMigratedToAnnotation AnnMigratedTo prev new = false)
      ∧ (¬ new.HasKey AnnMigratedTo →
          HasMigratedToAnnotation AnnMigratedTo prev new = false))
    ∧ HasMigratedToAnnotation "migrated-to" (some []) (some [("migrated-to", "csi")]) = true
    ∧ HasMigratedToAnnotation "migrated-to" (some [("migrated-to", "csi")])
        (some [("migrated-to", "csi")]) = false
    ∧ HasMigratedToAnnotation "migrated-to" (some [("migrated-to", "csi")]) (some []) = false
    ∧ HasMigratedToAnnotation "migrated-to" none (some [("migrated-to", "csi")]) = true := by
  refine ⟨?_, by decide, by decide, by decide, by decide⟩
  intro k prev new
  have hn := StringMap.index_found_iff new k
  have hp := StringMap.index_found_iff prev k
  have hiff : HasMigratedToAnnotation k prev new = true ↔
      new.HasKey k ∧ ¬ prev.HasKey k := by
    rw [← hn, ← hp]
    unfold HasMigratedToAnnotation
    cases (new.index k).2 <;> cases (prev.index k).2 <;> simp
  refine ⟨hiff, ?_, ?_⟩
  · intro h1 h2
    cases hb : HasMigratedToAnnotation k prev new with
    | false => rfl
    | true => exact absurd h2 (hiff.1 hb).2
  · intro h1
    cases hb : HasMigratedToAnnotation k prev new with
    | false => rfl
    | true => exact absurd (hiff.1 hb).1 h1

/-! ## The volume state filters -/

/-- C2: when the cache listing succeeds with `allPVs`, `getPVsInBoundAvailableOrReleased`
returns, with a nil error, exactly the listed PVs that have a CSI spec of this
driver and a phase among Bound, Available and Released; no returned PV is
Pending or Failed, and no returned PV lacks a CSI spec of this driver. -/
theorem getPVsInBoundAvailableOrReleased_exact (driverName : String)
    (metadataSyncer : metadataSyncInformer) (allPVs : List PersistentVolume)
    (hlist : metadataSyncer.pvLister.List = (allPVs, none)) :
    getPVsInBoundAvailableOrReleased driverName metadataSyncer
      = (allPVs.filter (fun pv => isDriverCSI driverName pv
            && (pv.Status.Phase == VolumeBound || pv.Status.Phase == VolumeAvailable
                || pv.Status.Phase == VolumeReleased)), none)
    ∧ (∀ pv, pv ∈ (getPVsInBoundAvailableOrReleased driverName metadataSyncer).1 ↔
        pv ∈ allPVs
        ∧ (∃ csi, pv.Spec.CSI = some csi ∧ csi.Driver = driverName)
        ∧ (pv.Status.Phase = VolumeBound ∨ pv.Status.Phase = VolumeAvailable
            ∨ pv.Status.Phase = VolumeReleased))
    ∧ (∀ pv, pv ∈ (getPVsInBoundAvailableOrReleased driverName metadataSyncer).1 →
        pv.Status.Phase ≠ VolumePending ∧ pv.Status.Phase ≠ VolumeFailed
        ∧ pv.Spec.CSI ≠ none ∧ ∀ csi, pv.Spec.CSI = some csi → csi.Driver = driverName) := by
  have heq : getPVsInBoundAvailableOrReleased driverName metadataSyncer
      = (allPVs.filter (fun pv => isDriverCSI driverName pv
            && (pv.Status.Phase == VolumeBound || pv.Status.Phase == VolumeAvailable
                || pv.Status.Phase == VolumeReleased)), none) := by
    unfold getPVsInBoundAvailableOrReleased
    rw [hlist]
    simp only [foldl_select, List.nil_append]
  have hmem : ∀ pv, pv ∈ (getPVsInBoundAvailableOrReleased driverName metadataSyncer).1 ↔
        pv ∈ allPVs
        ∧ (∃ csi, pv.Spec.CSI = some csi ∧ csi.Driver = driverName)
        ∧ (pv.Status.Phase = VolumeBound ∨ pv.Status.Phase = VolumeAvailable
            ∨ pv.Status.Phase = VolumeReleased) := by
    intro pv
    rw [heq]
    simp only [List.mem_filter, Bool.and_eq_true, Bool.or_eq_true, beq_iff_eq,
      isDriverCSI_iff, or_assoc]
  refine ⟨heq, hmem, ?_⟩
  intro pv hpv
  obtain ⟨_, ⟨csi, hcsi, hdrv⟩, hphase⟩ := (hmem pv).1 hpv
  refine ⟨?_, ?_, ?_, ?_⟩
  · rcases hphase with h | h | h <;> rw [h] <;> decide
  · rcases hphase with h | h | h <;> rw [h] <;> decide
  · simp [hcsi]
  · intro csi1 h1
    rw [hcsi] at h1
    cases h1
    exact hdrv

/-- Witness for C2 on the example cache: of the nine listed PVs exactly the
Bound, Available and Released volumes of the driver are returned. -/
theorem getPVsInBoundAvailableOrReleased_exact_witness :
    (exSyncer false).pvLister.List = (exPVs, none)
    ∧ getPVsInBoundAvailableOrReleased exDriver (exSyncer false)
      = (exPVs.filter (fun pv => isDriverCSI exDriver pv
            && (pv.Status.Phase == VolumeBound || pv.Status.Phase == VolumeAvailable
                || pv.Status.Phase == VolumeReleased)), none)
    ∧ (getPVsInBoundAvailableOrReleased exDriver (exSyncer false)).1.map (fun pv => pv.Name)
      = ["pv-bound", "pv-available", "pv-released", "pv-dual"] :=
  ⟨rfl, (getPVsInBoundAvailableOrReleased_exact exDriver (exSyncer false) exPVs rfl).1,
    by decide⟩

/-- C3: when the cache listing succeeds with `allPVs`, `getBoundPVs` returns, with a
nil error, exactly the listed PVs that have a CSI spec of this driver and phase
Bound; no returned PV is Available, Released, Pending or Failed, and no
returned PV lacks a CSI spec of this driver. -/
theorem getBoundPVs_exact (driverName : String)
    (metadataSyncer : metadataSyncInformer) (allPVs : List PersistentVolume)
    (hlist : metadataSyncer.pvLister.List = (allPVs, none)) :
    getBoundPVs driverName metadataSyncer
      = (allPVs.filter (fun pv => isDriverCSI driverName pv
            && pv.Status.Phase == VolumeBound), none)
    ∧ (∀ pv, pv ∈ (getBoundPVs driverName metadataSyncer).1 ↔
        pv ∈ allPVs
        ∧ (∃ csi, pv.Spec.CSI = some csi ∧ csi.Driver = driverName)
        ∧ pv.Status.Phase = VolumeBound)
    ∧ (∀ pv, pv ∈ (getBoundPVs driverName metadataSyncer).1 →
        pv.Status.Phase ≠ VolumeAvailable ∧ pv.Status.Phase ≠ VolumeReleased
        ∧ pv.Status.Phase ≠ VolumePending ∧ pv.Status.Phase ≠ VolumeFailed
        ∧ pv.Spec.CSI ≠ none ∧ ∀ csi, pv.Spec.CSI = some csi → csi.Driver = driverName) := by
  have heq : getBoundPVs driverName metadataSyncer
      = (allPVs.filter (fun pv => isDriverCSI driverName pv
            && pv.Status.Phase == VolumeBound), none) := by
    unfold getBoundPVs
    rw [hlist]
    simp only [foldl_select, List.nil_append]
  have hmem : ∀ pv, pv ∈ (getBoundPVs driverName metadataSyncer).1 ↔
        pv ∈ allPVs
        ∧ (∃ csi, pv.Spec.CSI = some csi ∧ csi.Driver = driverName)
        ∧ pv.Status.Phase = VolumeBound := by
    intro pv
    rw [heq]
    simp only [List.mem_filter, Bool.and_eq_true, beq_iff_eq, isDriverCSI_iff]
  refine ⟨heq, hmem, ?_⟩
  intro pv hpv
  obtain ⟨_, ⟨csi, hcsi, hdrv⟩, hphase⟩ := (hmem pv).1 hpv
  refine ⟨?_, ?_, ?_, ?_, ?_, ?_⟩
  · rw [hphase]; decide
  · rw [hphase]; decide
  · rw [hphase]; decide
  · rw [hphase]; decide
  · simp [hcsi]
  · intro csi1 h1
    rw [hcsi] at h1
    cases h1
    exact hdrv

/-- Witness for C3 on the example cache: only the Bound volumes of the driver are
returned. -/
theorem getBoundPVs_exact_witness :
    (exSyncer false).pvLister.List = (exPVs, none)
    ∧ getBoundPVs exDriver (exSyncer false)
      = (exPVs.filter (fun pv => isDriverCSI exDriver pv
            && pv.Status.Phase == VolumeBound), none)
    ∧ (getBoundPVs exDriver (exSyncer false)).1.map (fun pv => pv.Name)
      = ["pv-bound", "pv-dual"] :=
  ⟨rfl, (getBoundPVs_exact exDriver (exSyncer false) exPVs rfl).1, by decide⟩

/-! ## The validity gate -/

/-- C4: with the migration flag disabled, `IsValidVolume` reports valid a resolved PV
that has neither a CSI spec nor an in-tree vSphere source (`pv-nfs`), and one
whose CSI spec names another driver (`pv-other`): the first guard of the code
rejects only when the flag is enabled. -/
theorem IsValidVolume_foreign_volume_migration_off :
    (exPV "pv-nfs" none false VolumeBound).Spec.CSI = none
    ∧ (exPV "pv-nfs" none false VolumeBound).Spec.VsphereVolume = none
    ∧ (exSyncer false).CSIMigration = false
    ∧ (exSyncer false).pvcLister.Get exPod.Namespace "claim-nfs"
        = (some (exPVC "claim-nfs" "pv-nfs"), none)
    ∧ (exSyncer false).pvLister.Get "pv-nfs"
        = (some (exPV "pv-nfs" none false VolumeBound), none)
    ∧ IsValidVolume exDriver (exVolume "claim-nfs") (some exPod) (exSyncer false)
        = .ok (true, some (exPV "pv-nfs" none false VolumeBound),
            some (exPVC "claim-nfs" "pv-nfs"))
    ∧ IsValidVolume exDriver (exVolume "claim-other") (some exPod) (exSyncer false)
        = .ok (true, some (exPV "pv-other" (some "ebs.csi.aws.com") false VolumeBound),
            some (exPVC "claim-other" "pv-other"))
    ∧ IsValidVolume exDriver (exVolume "claim-nfs") (some exPod) (exSyncer true)
        = .ok (false, none, none) :=
  ⟨rfl, rfl, rfl, rfl, rfl, rfl, rfl, rfl⟩

/-- C5: for a Pod volume with claim name `claim.ClaimName` in a Pod of namespace
`pod.Namespace`, if the PVC lookup returns an error, or it returns a PVC without
error and the lookup of the PV named by that PVC's `Spec.VolumeName` returns an
error, `IsValidVolume` returns `(false, nil, nil)`, whatever the migration flag. -/
theorem IsValidVolume_lookup_failure (driverName : String) (volume : Volume)
    (claim : PersistentVolumeClaimVolumeSource) (pod : Pod)
    (metadataSyncer : metadataSyncInformer)
    (hclaim : volume.PersistentVolumeClaim = some claim)
    (hfail :
      (∃ e, (metadataSyncer.pvcLister.Get pod.Namespace claim.ClaimName).2 = some e)
      ∨ (∃ pvc e, metadataSyncer.pvcLister.Get pod.Namespace claim.ClaimName = (some pvc, none)
            ∧ (metadataSyncer.pvLister.Get pvc.Spec.VolumeName).2 = some e)) :
    IsValidVolume driverName volume (some pod) metadataSyncer = .ok (false, none, none) := by
  unfold IsValidVolume
  rw [hclaim]
  rcases hfail with ⟨e, he⟩ | ⟨pvc, e, hpvc, he⟩
  · rcases hget : metadataSyncer.pvcLister.Get pod.Namespace claim.ClaimName with ⟨o, err⟩
    rw [hget] at he
    simp only at he
    subst he
    simp only [hget]
  · simp only [hpvc]
    rcases hget : metadataSyncer.pvLister.Get pvc.Spec.VolumeName with ⟨o, err⟩
    rw [hget] at he
    simp only at he
    subst he
    cases o <;> rfl

/-- Witness for C5: the claim `claim-lost` is found and names a PV that the PV
cache does not hold. -/
theorem IsValidVolume_lookup_failure_witness :
    IsValidVolume exDriver (exVolume "claim-lost") (some exPod) (exSyncer true)
      = .ok (false, none, none) :=
  IsValidVolume_lookup_failure exDriver (exVolume "claim-lost") { ClaimName := "claim-lost" }
    exPod (exSyncer true) rfl
    (Or.inr ⟨exPVC "claim-lost" "pv-lost", { message := "persistentvolume not found" },
      rfl, rfl⟩)

/-- C6: when both lookups succeed, the resolved PV has a non-nil `VsphereVolume`
source and the migration flag is disabled, `IsValidVolume` returns
`(false, nil, nil)`, whatever the PV's CSI spec. -/
theorem IsValidVolume_intree_migration_off (driverName : String) (volume : Volume)
    (claim : PersistentVolumeClaimVolumeSource) (pod : Pod)
    (metadataSyncer : metadataSyncInformer)
    (pvc : PersistentVolumeClaim) (pv : PersistentVolume)
    (hclaim : volume.PersistentVolumeClaim = some claim)
    (hpvc : metadataSyncer.pvcLister.Get pod.Namespace claim.ClaimName = (some pvc, none))
    (hpv : metadataSyncer.pvLister.Get pvc.Spec.VolumeName = (some pv, none))
    (hintree : pv.Spec.VsphereVolume ≠ none)
    (hflag : metadataSyncer.CSIMigration = false) :
    IsValidVolume driverName volume (some pod) metadataSyncer = .ok (false, none, none) := by
  unfold IsValidVolume
  rw [hclaim]
  simp only [hpvc, hpv, hflag]
  cases hv : pv.Spec.VsphereVolume with
  | none => exact absurd hv hintree
  | some v => simp

/-- Witness for C6: the in-tree volume `pv-intree` with migration disabled. -/
theorem IsValidVolume_intree_migration_off_witness :
    IsValidVolume exDriver (exVolume "claim-intree") (some exPod) (exSyncer false)
      = .ok (false, none, none) :=
  IsValidVolume_intree_migration_off exDriver (exVolume "claim-intree")
    { ClaimName := "claim-intree" } exPod (exSyncer false)
    (exPVC "claim-intree" "pv-intree") (exPV "pv-intree" none true VolumeBound)
    rfl rfl rfl (by decide) rfl

/-- C7: when both lookups succeed, the resolved PV is a CSI volume of this driver or
an in-tree vSphere volume with migration enabled, and it is not an in-tree
vSphere volume with migration disabled, `IsValidVolume` returns `(true, pv, pvc)`
with the PVC found under the Pod's namespace and the claim name and the PV found
under `pvc.Spec.VolumeName`. -/
theorem IsValidVolume_valid (driverName : String) (volume : Volume)
    (claim : PersistentVolumeClaimVolumeSource) (pod : Pod)
    (metadataSyncer : metadataSyncInformer)
    (pvc : PersistentVolumeClaim) (pv : PersistentVolume)
    (hclaim : volume.PersistentVolumeClaim = some claim)
    (hpvc : metadataSyncer.pvcLister.Get pod.Namespace claim.ClaimName = (some pvc, none))
    (hpv : metadataSyncer.pvLister.Get pvc.Spec.VolumeName = (some pv, none))
    (hown : (∃ csi, pv.Spec.CSI = some csi ∧ csi.Driver = driverName)
      ∨ (pv.Spec.VsphereVolume ≠ none ∧ metadataSyncer.CSIMigration = true))
    (hnot : ¬ (pv.Spec.VsphereVolume ≠ none ∧ metadataSyncer.CSIMigration = false)) :
    IsValidVolume driverName volume (some pod) metadataSyncer
      = .ok (true, some pv, some pvc) := by
  unfold IsValidVolume
  rw [hclaim]
  simp only [hpvc, hpv]
  have hcsi := isDriverCSI_iff driverName pv
  cases hd : isDriverCSI driverName pv <;> cases hv : pv.Spec.VsphereVolume
    <;> cases hm : metadataSyncer.CSIMigration
    <;> simp_all

/-- Witness for C7: the in-tree volume `pv-intree` with migration enabled. -/
theorem IsValidVolume_valid_witness :
    IsValidVolume exDriver (exVolume "claim-intree") (some exPod) (exSyncer true)
      = .ok (true, some (exPV "pv-intree" none true VolumeBound),
          some (exPVC "claim-intree" "pv-intree")) :=
  IsValidVolume_valid exDriver (exVolume "claim-intree")
    { ClaimName := "claim-intree" } exPod (exSyncer true)
    (exPVC "claim-intree" "pv-intree") (exPV "pv-intree" none true VolumeBound)
    rfl rfl rfl (Or.inr ⟨by decide, rfl⟩) (by decide)

/-- C8, as stated, fails: `pv-dual` has a CSI spec of this driver and both lookups
succeed, yet with the migration flag disabled, because the PV also carries a
`VsphereVolume` source, `IsValidVolume` returns `(false, nil, nil)`. -/
theorem IsValidVolume_driver_csi_rejected :
    (exSyncer false).pvcLister.Get exPod.Namespace "claim-dual"
        = (some (exPVC "claim-dual" "pv-dual"), none)
    ∧ (exSyncer false).pvLister.Get "pv-dual"
        = (some (exPV "pv-dual" (some exDriver) true VolumeBound), none)
    ∧ (exPV "pv-dual" (some exDriver) true VolumeBound).Spec.CSI
        = some { Driver := exDriver, VolumeHandle := "pv-dual-handle" }
    ∧ IsValidVolume exDriver (exVolume "claim-dual") (some exPod) (exSyncer false)
        = .ok (false, none, none)
    ∧ IsValidVolume exDriver (exVolume "claim-dual") (some exPod) (exSyncer false)
        ≠ .ok (true, some (exPV "pv-dual" (some exDriver) true VolumeBound),
            some (exPVC "claim-dual" "pv-dual")) :=
  ⟨rfl, rfl, rfl, rfl, by
    intro h
    have h1 : IsValidVolume exDriver (exVolume "claim-dual") (some exPod) (exSyncer false)
        = .ok (false, none, none) := rfl
    rw [h1] at h
    injection h with h2
    injection h2 with h3
    exact Bool.noConfusion h3⟩

/-- C8, amended: when both lookups succeed and the resolved PV has a CSI spec whose
driver is this driver's name, `IsValidVolume` returns `(true, pv, pvc)` unless the
PV also has a non-nil `VsphereVolume` source while the migration flag is
disabled, in which case it returns `(false, nil, nil)`. -/
theorem IsValidVolume_driver_csi (driverName : String) (volume : Volume)
    (claim : PersistentVolumeClaimVolumeSource) (pod : Pod)
    (metadataSyncer : metadataSyncInformer)
    (pvc : PersistentVolumeClaim) (pv : PersistentVolume) (csi : CSIPersistentVolumeSource)
    (hclaim : volume.PersistentVolumeClaim = some claim)
    (hpvc : metadataSyncer.pvcLister.Get pod.Namespace claim.ClaimName = (some pvc, none))
    (hpv : metadataSyncer.pvLister.Get pvc.Spec.VolumeName = (some pv, none))
    (hcsi : pv.Spec.CSI = some csi) (hdriver : csi.Driver = driverName) :
    (¬ (pv.Spec.VsphereVolume ≠ none ∧ metadataSyncer.CSIMigration = false) →
      IsValidVolume driverName volume (some pod) metadataSyncer
        = .ok (true, some pv, some pvc))
    ∧ ((pv.Spec.VsphereVolume ≠ none ∧ metadataSyncer.CSIMigration = false) →
      IsValidVolume driverName volume (some pod) metadataSyncer
        = .ok (false, none, none)) := by
  have hd : isDriverCSI driverName pv = true :=
    (isDriverCSI_iff driverName pv).2 ⟨csi, hcsi, hdriver⟩
  unfold IsValidVolume
  rw [hclaim]
  simp only [hpvc, hpv, hd]
  cases hv : pv.Spec.VsphereVolume <;> cases hm : metadataSyncer.CSIMigration <;> simp

/-- Witness for C8, amended: the CSI volume `pv-bound` of the driver, migration
disabled. -/
theorem IsValidVolume_driver_csi_witness :
    IsValidVolume exDriver (exVolume "claim-bound") (some exPod) (exSyncer false)
      = .ok (true, some (exPV "pv-bound" (some exDriver) false VolumeBound),
          some (exPVC "claim-bound" "pv-bound")) :=
  (IsValidVolume_driver_csi exDriver (exVolume "claim-bound")
    { ClaimName := "claim-bound" } exPod (exSyncer false)
    (exPVC "claim-bound" "pv-bound") (exPV "pv-bound" (some exDriver) false VolumeBound)
    { Driver := exDriver, VolumeHandle := "pv-bound-handle" }
    rfl rfl rfl rfl rfl).1 (by decide)

/-! ## The paginated walk: general lemmas -/

theorem getQueryResultsLoop_fuel_mono {σ : Type} (volumeManager : Manager σ)
    (fuel extra : Nat) (s : σ) (f : CnsQueryFilter) (acc : List CnsQueryResult)
    (issued : List CnsQueryFilter) (w : Walk σ)
    (h : getQueryResultsLoop volumeManager fuel s f acc issued = some w) :
    getQueryResultsLoop volumeManager (fuel + extra) s f acc issued = some w := by
  induction fuel generalizing s f acc issued with
  | zero => simp [getQueryResultsLoop] at h
  | succ fuel ih =>
    rw [Nat.succ_add]
    unfold getQueryResultsLoop at h ⊢
    rcases hq : volumeManager.QueryVolume s f with ⟨⟨r, e⟩, s1⟩
    rw [hq] at h
    cases e with
    | some err => simpa using h
    | none =>
      cases r with
      | none => simpa using h
      | some r =>
        by_cases hstop : r.Cursor.Offset = r.Cursor.TotalRecords
        · simpa [hstop] using h
        · simp only [hstop, if_false] at h ⊢
          exact ih _ _ _ _ h

theorem getQueryResultsLoop_fuel_le {σ : Type} (volumeManager : Manager σ)
    (fuel more : Nat) (hle : fuel ≤ more) (s : σ) (f : CnsQueryFilter)
    (acc : List CnsQueryResult) (issued : List CnsQueryFilter) (w : Walk σ)
    (h : getQueryResultsLoop volumeManager fuel s f acc issued = some w) :
    getQueryResultsLoop volumeManager more s f acc issued = some w := by
  obtain ⟨d, rfl⟩ : ∃ d, more = fuel + d := ⟨more - fuel, by omega⟩
  exact getQueryResultsLoop_fuel_mono volumeManager fuel d s f acc issued w h

theorem getQueryResultsLoop_continuing {σ : Type} (volumeManager : Manager σ)
    {s sk : σ} {f fk : CnsQueryFilter} {rs : List CnsQueryResult}
    (hcont : ContinuingPrefix volumeManager s f rs sk fk)
    (fuel : Nat) (acc : List CnsQueryResult) (issued : List CnsQueryFilter) :
    getQueryResultsLoop volumeManager (rs.length + fuel) s f acc issued
      = getQueryResultsLoop volumeManager fuel sk fk (acc ++ rs)
          (issued ++ prefixRequests f rs) := by
  induction hcont generalizing acc issued with
  | done s f => simp [prefixRequests]
  | step hq hne hrest ih =>
    rw [List.length_cons, Nat.succ_add]
    conv_lhs => unfold getQueryResultsLoop
    simp only [hq, hne, if_false]
    rw [ih]
    simp [prefixRequests]

theorem prefixRequests_length (f : CnsQueryFilter) (rs : List CnsQueryResult) :
    (prefixRequests f rs).length = rs.length := by
  induction rs generalizing f with
  | nil => rfl
  | cons r rs ih => simp [prefixRequests, ih]

/-! ## The paginated walk: a failing query -/

/-- C10: if the first `k` queries of a walk succeed with non-nil results that do not
end the walk and the next query fails with error `e`, `getQueryResults` returns
`(nil, e)`: no accumulated page is returned, the error is `e` itself, and the
failed query, the `k+1`-st, is the last one issued. -/
theorem getQueryResults_query_error {σ : Type} (volumeManager : Manager σ)
    (queryVolumeLimit : Int) (volumeIds : List CnsVolumeId) (clusterID : String)
    (k : Nat) (s0 sk s1 : σ) (rs : List CnsQueryResult) (fk : CnsQueryFilter)
    (r : Option CnsQueryResult) (e : GoError)
    (hk : rs.length = k)
    (hcont : ContinuingPrefix volumeManager s0
      (initialQueryFilter queryVolumeLimit volumeIds clusterID) rs sk fk)
    (hfail : volumeManager.QueryVolume sk fk = ((r, some e), s1)) :
    ∃ w : Walk σ,
      (∀ fuel, k < fuel →
        getQueryResults queryVolumeLimit fuel volumeIds clusterID volumeManager s0 = some w)
      ∧ w.results = [] ∧ w.err = some e
      ∧ w.requests
          = prefixRequests (initialQueryFilter queryVolumeLimit volumeIds clusterID) rs ++ [fk]
      ∧ w.requests.length = k + 1
      ∧ w.backend = s1 := by
  refine ⟨{ results := [], err := some e,
            requests := prefixRequests
              (initialQueryFilter queryVolumeLimit volumeIds clusterID) rs ++ [fk],
            backend := s1 }, ?_, rfl, rfl, rfl, ?_, rfl⟩
  · intro fuel hfuel
    obtain ⟨d, rfl⟩ : ∃ d, fuel = rs.length + (1 + d) := ⟨fuel - rs.length - 1, by omega⟩
    unfold getQueryResults
    rw [getQueryResultsLoop_continuing volumeManager hcont]
    apply getQueryResultsLoop_fuel_mono volumeManager 1 d
    unfold getQueryResultsLoop
    simp [hfail]
  · simp [prefixRequests_length, hk]

/-- Witness for C10: the backend answers two queries with pages of two of its five
records and fails the third query. -/
theorem getQueryResults_query_error_witness :
    ∃ w : Walk Nat,
      (∀ fuel, 2 < fuel → getQueryResults 2 fuel [] "cluster-1" (flakyManager exRecords 2) 0
          = some w)
      ∧ w.results = []
      ∧ w.err = some { message := "ServerFaultCode: query failed" }
      ∧ w.requests
          = prefixRequests (initialQueryFilter 2 [] "cluster-1")
              [pageResult exRecords 0 2, pageResult exRecords 2 2]
            ++ [{ initialQueryFilter 2 [] "cluster-1" with
                  Cursor := (pageResult exRecords 2 2).Cursor }]
      ∧ w.requests.length = 2 + 1
      ∧ w.backend = 3 :=
  getQueryResults_query_error (flakyManager exRecords 2) 2 [] "cluster-1" 2 0 2 3
    [pageResult exRecords 0 2, pageResult exRecords 2 2]
    { initialQueryFilter 2 [] "cluster-1" with Cursor := (pageResult exRecords 2 2).Cursor }
    none { message := "ServerFaultCode: query failed" } rfl
    (@ContinuingPrefix.step _ _ 0 1 2 _ _ _ _ rfl (by decide)
      (@ContinuingPrefix.step _ _ 1 2 2 _ _ _ _ rfl (by decide) (ContinuingPrefix.done _ _)))
    rfl

/-! ## The paginated walk: a backend that pages through its records -/

theorem pageCount_pos (T L : Nat) : 1 ≤ max 1 ((T + L - 1) / L) := le_max_left _ _

theorem pageCount_covers (T L : Nat) (hL : 0 < L) : T ≤ max 1 ((T + L - 1) / L) * L := by
  have h1 := Nat.div_add_mod (T + L - 1) L
  have h2 := Nat.mod_lt (T + L - 1) hL
  have h3 : (T + L - 1) / L * L ≤ max 1 ((T + L - 1) / L) * L :=
    Nat.mul_le_mul_right L (le_max_right _ _)
  rw [Nat.mul_comm L] at h1
  generalize (T + L - 1) / L * L = a at h1 h3
  generalize max 1 ((T + L - 1) / L) * L = b at h3 ⊢
  omega

theorem pageCount_inner (T L i : Nat) (hi : i + 1 < max 1 ((T + L - 1) / L)) :
    (i + 1) * L < T := by
  have hq : i + 2 ≤ (T + L - 1) / L := by
    rcases le_total 1 ((T + L - 1) / L) with h | h
    · rw [max_eq_right h] at hi; omega
    · rw [max_eq_left h] at hi; omega
  have h1 : (i + 2) * L ≤ (T + L - 1) / L * L := Nat.mul_le_mul_right L hq
  have h2 : (T + L - 1) / L * L ≤ T + L - 1 := Nat.div_mul_le_self _ _
  have hL : 0 < L := by
    rcases Nat.eq_zero_or_pos L with h0 | h0
    · subst h0; simp at hq
    · exact h0
  have h3 : (i + 2) * L = (i + 1) * L + L := by ring
  generalize (i + 1) * L = a at h3 ⊢
  omega

theorem pages_flatten {α : Type} (L : Nat) (n : Nat) (l : List α) (h : l.length ≤ n * L) :
    ((List.range n).map (fun i => (l.drop (i * L)).take L)).flatten = l := by
  induction n generalizing l with
  | zero =>
    have : l = [] := List.eq_nil_of_length_eq_zero (by simpa using h)
    simp [this]
  | succ n ih =>
    rw [List.range_succ_eq_map, List.map_cons, List.map_map, List.flatten_cons]
    have hrest : (List.map ((fun i => (l.drop (i * L)).take L) ∘ Nat.succ) (List.range n))
        = (List.range n).map (fun i => ((l.drop L).drop (i * L)).take L) := by
      apply List.map_congr_left
      intro i _
      simp only [Function.comp, List.drop_drop, Nat.succ_eq_add_one]
      congr 2
      ring
    rw [hrest, ih (l.drop L) (by rw [List.length_drop]; rw [Nat.succ_mul] at h; omega)]
    simp

theorem getQueryResultsLoop_paged {σ : Type} (volumeManager : Manager σ)
    (f0 : CnsQueryFilter) (records : List CnsVolume) (L : Nat) (hL : 0 < L)
    (hback : PagedBackend volumeManager f0 records L) (m : Nat) :
    ∀ (i : Nat) (s : σ) (c : CnsCursor) (acc : List CnsQueryResult)
      (issued : List CnsQueryFilter),
      i + (m + 1) = max 1 ((records.length + L - 1) / L) →
      c.Offset = ((i * L : Nat) : Int) → c.Limit = (L : Int) →
      ∃ s1, getQueryResultsLoop volumeManager (m + 1) s { f0 with Cursor := c } acc issued
        = some { results := acc ++ (List.range' i (m + 1)).map
                    (fun j => pageResult records (j * L) L)
                 err := none
                 requests := issued ++ { f0 with Cursor := c } ::
                    (List.range' i m).map
                      (fun j => { f0 with Cursor := (pageResult records (j * L) L).Cursor })
                 backend := s1 } := by
  induction m with
  | zero =>
    intro i s c acc issued hi hoff hlim
    have hcov := pageCount_covers records.length L hL
    rw [← hi] at hcov
    have hle : i * L ≤ records.length := by
      rcases Nat.eq_zero_or_pos i with h0 | h0
      · subst h0; simp
      · have := pageCount_inner records.length L (i - 1) (by omega)
        rw [Nat.sub_add_cancel h0] at this
        omega
    obtain ⟨s1, hq⟩ := hback s (i * L) c hle hoff hlim
    refine ⟨s1, ?_⟩
    unfold getQueryResultsLoop
    have hstop : (pageResult records (i * L) L).Cursor.Offset
        = (pageResult records (i * L) L).Cursor.TotalRecords := by
      simp only [pageResult, Nat.cast_inj]
      rw [Nat.add_mul, Nat.one_mul] at hcov
      omega
    simp [hq, hstop]
  | succ m ih =>
    intro i s c acc issued hi hoff hlim
    have hinner := pageCount_inner records.length L i (by omega)
    have hle : i * L ≤ records.length := by
      rw [Nat.add_mul, Nat.one_mul] at hinner
      omega
    obtain ⟨s1, hq⟩ := hback s (i * L) c hle hoff hlim
    have hoff1 : (pageResult records (i * L) L).Cursor.Offset = (((i + 1) * L : Nat) : Int) := by
      simp only [pageResult, Nat.cast_inj]
      rw [Nat.add_mul, Nat.one_mul] at hinner ⊢
      omega
    have hne : (pageResult records (i * L) L).Cursor.Offset
        ≠ (pageResult records (i * L) L).Cursor.TotalRecords := by
      rw [hoff1]
      simp only [pageResult, ne_eq, Nat.cast_inj]
      omega
    obtain ⟨s2, hrec⟩ := ih (i + 1) s1 (pageResult records (i * L) L).Cursor
      (acc ++ [pageResult records (i * L) L]) (issued ++ [{ f0 with Cursor := c }])
      (by omega) hoff1 rfl
    refine ⟨s2, ?_⟩
    conv_lhs => unfold getQueryResultsLoop
    simp only [hq, hne, if_false]
    rw [hrec]
    simp [List.range'_succ]

theorem initialQueryFilter_cursor (queryVolumeLimit : Int) (volumeIds : List CnsVolumeId)
    (clusterID : String) :
    (initialQueryFilter queryVolumeLimit volumeIds clusterID).Cursor
      = { Offset := 0, Limit := queryVolumeLimit, TotalRecords := 0 } := by
  unfold initialQueryFilter
  split <;> rfl

theorem pagedManager_paged (f0 : CnsQueryFilter) (records : List CnsVolume) (L : Nat) :
    PagedBackend (pagedManager records) f0 records L := by
  intro s n c _ hoff hlim
  exact ⟨s, by simp [pagedManager, hoff, hlim]⟩

/-- C9: against a backend that holds the `T` records `records` and answers the cursor
`{o, L}` with the records `[o, min (o+L) T)` and the cursor `{min (o+L) T, L, T}`,
`getQueryResults` with page size `L > 0` returns, with no error, exactly
`max 1 ⌈T/L⌉` pages, the `i`-th being the backend's page for offset `i*L`; the
pages' records concatenated are `records`; the requests carry the cursors
`{0, L}, {L, L}, {2L, L}, ...` in that order, one per page; and the only
response whose returned offset equals `T` is the last one. -/
theorem getQueryResults_paged {σ : Type} (volumeManager : Manager σ)
    (volumeIds : List CnsVolumeId) (clusterID : String) (records : List CnsVolume)
    (L : Nat) (s0 : σ) (hL : 0 < L)
    (hback : PagedBackend volumeManager
      (initialQueryFilter (L : Int) volumeIds clusterID) records L) :
    ∃ w : Walk σ,
      (∀ fuel, max 1 ((records.length + L - 1) / L) ≤ fuel →
        getQueryResults (L : Int) fuel volumeIds clusterID volumeManager s0 = some w)
      ∧ w.err = none
      ∧ w.results = (List.range (max 1 ((records.length + L - 1) / L))).map
          (fun i => pageResult records (i * L) L)
      ∧ w.results.length = max 1 ((records.length + L - 1) / L)
      ∧ (w.results.map (fun r => r.Volumes)).flatten = records
      ∧ w.requests.map (fun q => (q.Cursor.Offset, q.Cursor.Limit))
          = (List.range (max 1 ((records.length + L - 1) / L))).map
              (fun i => (((i * L : Nat) : Int), (L : Int)))
      ∧ (∀ i, i < max 1 ((records.length + L - 1) / L) →
          ((pageResult records (i * L) L).Cursor.Offset = (records.length : Int)
            ↔ i + 1 = max 1 ((records.length + L - 1) / L))) := by
  have hpos := pageCount_pos records.length L
  have hcov := pageCount_covers records.length L hL
  have hinner := pageCount_inner records.length L
  generalize hn : max 1 ((records.length + L - 1) / L) = n at hpos hcov hinner ⊢
  obtain ⟨m, rfl⟩ : ∃ m, n = m + 1 := ⟨n - 1, by omega⟩
  have hc := initialQueryFilter_cursor (L : Int) volumeIds clusterID
  obtain ⟨s1, hrun⟩ := getQueryResultsLoop_paged volumeManager
    (initialQueryFilter (L : Int) volumeIds clusterID) records L hL hback m 0 s0
    (initialQueryFilter (L : Int) volumeIds clusterID).Cursor [] []
    (by rw [hn]; omega) (by rw [hc]; simp) (by rw [hc])
  refine ⟨_, fun fuel hfuel =>
    getQueryResultsLoop_fuel_le volumeManager (m + 1) fuel hfuel _ _ _ _ _ hrun,
    ?_, ?_, ?_, ?_, ?_, ?_⟩
  · rfl
  · simp [List.range_eq_range']
  · simp
  · simp only [List.nil_append, List.map_map, ← List.range_eq_range']
    exact pages_flatten L (m + 1) records hcov
  · simp only [List.nil_append, List.map_cons, List.map_map, List.range_succ_eq_map,
      ← List.range_eq_range', hc]
    refine congrArg₂ List.cons (by simp) ?_
    apply List.map_congr_left
    intro j hj
    have hj1 : j < m := List.mem_range.1 hj
    have := hinner j (by omega)
    simp only [Function.comp, pageResult, Nat.succ_eq_add_one, Prod.mk.injEq, Nat.cast_inj,
      and_true]
    rw [Nat.add_mul, Nat.one_mul] at this ⊢
    omega
  · intro i hi
    simp only [pageResult, Nat.cast_inj]
    constructor
    · intro h
      by_contra hne
      have := hinner i (by omega)
      rw [Nat.add_mul, Nat.one_mul] at this
      omega
    · intro h
      have hi1 : i = m := by omega
      subst hi1
      rw [Nat.add_mul, Nat.one_mul] at hcov
      omega

/-- Witness for C9: 250 records and page size 100 give the request cursors
`{0,100}`, `{100,100}`, `{200,100}` and exactly three pages, the last one
returned with offset 250, the number of records. -/
theorem getQueryResults_paged_witness :
    ∃ w : Walk Unit,
      (∀ fuel, 3 ≤ fuel →
        getQueryResults 100 fuel [] "cluster-1" (pagedManager exRecords250) () = some w)
      ∧ w.err = none
      ∧ w.results.length = 3
      ∧ (w.results.map (fun r => r.Volumes)).flatten = exRecords250
      ∧ w.requests.map (fun q => (q.Cursor.Offset, q.Cursor.Limit))
          = [(0, 100), (100, 100), (200, 100)]
      ∧ w.results.map (fun r => (r.Cursor.Offset, r.Cursor.TotalRecords))
          = [(100, 250), (200, 250), (250, 250)] := by
  have hlen : exRecords250.length = 250 := by simp [exRecords250]
  have hcount : max 1 ((exRecords250.length + 100 - 1) / 100) = 3 := by rw [hlen]; decide
  obtain ⟨w, hrun, herr, hres, hlen3, hflat, hreq, -⟩ :=
    getQueryResults_paged (pagedManager exRecords250) [] "cluster-1" exRecords250 100 ()
      (by decide) (pagedManager_paged _ exRecords250 100)
  rw [hcount] at hrun hres hlen3 hreq
  refine ⟨w, ?_, herr, hlen3, hflat, ?_, ?_⟩
  · intro fuel hfuel
    simpa using hrun fuel hfuel
  · rw [hreq]
    simp [List.range_succ]
  · rw [hres]
    simp [List.range_succ, pageResult, hlen]

/-! ## The paginated walk: what a returned walk consists of -/

theorem getQueryResultsLoop_returned {σ : Type} (volumeManager : Manager σ) (fuel : Nat) :
    ∀ (s : σ) (f : CnsQueryFilter) (acc : List CnsQueryResult)
      (issued : List CnsQueryFilter) (w : Walk σ),
      getQueryResultsLoop volumeManager fuel s f acc issued = some w →
      ∃ rs sk fk, ContinuingPrefix volumeManager s f rs sk fk
        ∧ rs.length < fuel
        ∧ w.requests = issued ++ prefixRequests f rs ++ [fk]
        ∧ ((∃ r e, volumeManager.QueryVolume sk fk = ((r, some e), w.backend)
              ∧ w.results = [] ∧ w.err = some e)
          ∨ (volumeManager.QueryVolume sk fk = ((none, none), w.backend)
              ∧ w.results = acc ++ rs ∧ w.err = none)
          ∨ (∃ rl, volumeManager.QueryVolume sk fk = ((some rl, none), w.backend)
              ∧ rl.Cursor.Offset = rl.Cursor.TotalRecords
              ∧ w.results = acc ++ rs ++ [rl] ∧ w.err = none)) := by
  induction fuel with
  | zero =>
    intro s f acc issued w h
    simp [getQueryResultsLoop] at h
  | succ fuel ih =>
    intro s f acc issued w h
    unfold getQueryResultsLoop at h
    rcases hq : volumeManager.QueryVolume s f with ⟨⟨r, e⟩, s1⟩
    rw [hq] at h
    cases e with
    | some err =>
      simp only [Option.some.injEq] at h
      subst h
      exact ⟨[], s, f, ContinuingPrefix.done s f, Nat.succ_pos _, by simp [prefixRequests],
        Or.inl ⟨r, err, hq, rfl, rfl⟩⟩
    | none =>
      cases r with
      | none =>
        simp only [Option.some.injEq] at h
        subst h
        exact ⟨[], s, f, ContinuingPrefix.done s f, Nat.succ_pos _, by simp [prefixRequests],
          Or.inr (Or.inl ⟨hq, by simp, rfl⟩)⟩
      | some r =>
        by_cases hstop : r.Cursor.Offset = r.Cursor.TotalRecords
        · simp only [hstop, if_true, Option.some.injEq] at h
          subst h
          exact ⟨[], s, f, ContinuingPrefix.done s f, Nat.succ_pos _,
            by simp [prefixRequests], Or.inr (Or.inr ⟨r, hq, hstop, by simp, rfl⟩)⟩
        · simp only [hstop, if_false] at h
          obtain ⟨rs, sk, fk, hcont, hlen, hreq, hout⟩ := ih _ _ _ _ _ h
          refine ⟨r :: rs, sk, fk, ContinuingPrefix.step hq hstop hcont, by simpa using hlen,
            by simpa [prefixRequests] using hreq, ?_⟩
          rcases hout with hout | hout | hout
          · exact Or.inl hout
          · exact Or.inr (Or.inl ⟨hout.1, by simpa using hout.2.1, hout.2.2⟩)
          · obtain ⟨rl, h1, h2, h3, h4⟩ := hout
            exact Or.inr (Or.inr ⟨rl, h1, h2, by simpa using h3, h4⟩)

/-! ## The paginated walk: a nil result -/

/-- C11: if the first `k` queries of a walk succeed with non-nil results that do not
end the walk and the next query succeeds with a nil result, `getQueryResults`
returns exactly those `k` pages in order with a nil error, and the query answered
with nil, the `k+1`-st, is the last one issued; with `k = 0` the returned list is
empty. -/
theorem getQueryResults_nil_result {σ : Type} (volumeManager : Manager σ)
    (queryVolumeLimit : Int) (volumeIds : List CnsVolumeId) (clusterID : String)
    (k : Nat) (s0 sk s1 : σ) (rs : List CnsQueryResult) (fk : CnsQueryFilter)
    (hk : rs.length = k)
    (hcont : ContinuingPrefix volumeManager s0
      (initialQueryFilter queryVolumeLimit volumeIds clusterID) rs sk fk)
    (hnil : volumeManager.QueryVolume sk fk = ((none, none), s1)) :
    ∃ w : Walk σ,
      (∀ fuel, k < fuel →
        getQueryResults queryVolumeLimit fuel volumeIds clusterID volumeManager s0 = some w)
      ∧ w.results = rs ∧ w.results.length = k ∧ w.err = none
      ∧ (k = 0 → w.results = [])
      ∧ w.requests
          = prefixRequests (initialQueryFilter queryVolumeLimit volumeIds clusterID) rs ++ [fk]
      ∧ w.requests.length = k + 1
      ∧ w.backend = s1 := by
  refine ⟨{ results := rs, err := none,
            requests := prefixRequests
              (initialQueryFilter queryVolumeLimit volumeIds clusterID) rs ++ [fk],
            backend := s1 }, ?_, rfl, hk, rfl, ?_, rfl, ?_, rfl⟩
  · intro fuel hfuel
    obtain ⟨d, rfl⟩ : ∃ d, fuel = rs.length + (1 + d) := ⟨fuel - rs.length - 1, by omega⟩
    unfold getQueryResults
    rw [getQueryResultsLoop_continuing volumeManager hcont]
    apply getQueryResultsLoop_fuel_mono volumeManager 1 d
    unfold getQueryResultsLoop
    simp [hnil]
  · intro h0
    subst h0
    exact List.eq_nil_of_length_eq_zero hk
  · simp [prefixRequests_length, hk]

/-- Witness for C11: a backend that answers two queries with continuing pages and
the third with a nil result, and a backend that answers the first query with a
nil result. -/
theorem getQueryResults_nil_result_witness :
    (∃ w : Walk Nat,
      (∀ fuel, 2 < fuel →
        getQueryResults 2 fuel [] "cluster-1" (scriptedManager exScript) 0 = some w)
      ∧ w.results = [pageResult exRecords 0 2, pageResult exRecords 2 2]
      ∧ w.results.length = 2 ∧ w.err = none
      ∧ (2 = 0 → w.results = [])
      ∧ w.requests
          = prefixRequests (initialQueryFilter 2 [] "cluster-1")
              [pageResult exRecords 0 2, pageResult exRecords 2 2]
            ++ [{ initialQueryFilter 2 [] "cluster-1" with
                  Cursor := (pageResult exRecords 2 2).Cursor }]
      ∧ w.requests.length = 2 + 1
      ∧ w.backend = 3)
    ∧ (∃ w : Walk Nat,
      (∀ fuel, 0 < fuel →
        getQueryResults 2 fuel [] "cluster-1" (scriptedManager []) 0 = some w)
      ∧ w.results = [] ∧ w.results.length = 0 ∧ w.err = none
      ∧ (0 = 0 → w.results = [])
      ∧ w.requests = prefixRequests (initialQueryFilter 2 [] "cluster-1") []
            ++ [initialQueryFilter 2 [] "cluster-1"]
      ∧ w.requests.length = 0 + 1
      ∧ w.backend = 1) :=
  ⟨getQueryResults_nil_result (scriptedManager exScript) 2 [] "cluster-1" 2 0 2 3
      [pageResult exRecords 0 2, pageResult exRecords 2 2]
      { initialQueryFilter 2 [] "cluster-1" with Cursor := (pageResult exRecords 2 2).Cursor }
      rfl
      (@ContinuingPrefix.step _ _ 0 1 2 _ _ _ _ rfl (by decide)
        (@ContinuingPrefix.step _ _ 1 2 2 _ _ _ _ rfl (by decide)
          (ContinuingPrefix.done _ _)))
      rfl,
    getQueryResults_nil_result (scriptedManager []) 2 [] "cluster-1" 0 0 0 1 []
      (initialQueryFilter 2 [] "cluster-1") rfl (ContinuingPrefix.done _ _) rfl⟩

/-- C12: a walk of `getQueryResults` that returns without error has received, from
its first queries, the non-nil results `rs`, none of which has offset equal to
`TotalRecords`; then either the next query was answered with a nil result and the
returned list is `rs`, or it was answered with a result `rl` whose offset equals
its `TotalRecords` and the returned list is `rs` followed by `rl`.  In both cases
the query that ended the walk is the last request issued. -/
theorem getQueryResults_returned_pages {σ : Type} (volumeManager : Manager σ)
    (queryVolumeLimit : Int) (volumeIds : List CnsVolumeId) (clusterID : String)
    (fuel : Nat) (s0 : σ) (w : Walk σ)
    (hrun : getQueryResults queryVolumeLimit fuel volumeIds clusterID volumeManager s0
      = some w)
    (hok : w.err = none) :
    ∃ rs sk fk,
      ContinuingPrefix volumeManager s0
        (initialQueryFilter queryVolumeLimit volumeIds clusterID) rs sk fk
      ∧ w.requests
          = prefixRequests (initialQueryFilter queryVolumeLimit volumeIds clusterID) rs ++ [fk]
      ∧ w.requests.length = rs.length + 1
      ∧ ((volumeManager.QueryVolume sk fk = ((none, none), w.backend) ∧ w.results = rs)
        ∨ (∃ rl, volumeManager.QueryVolume sk fk = ((some rl, none), w.backend)
            ∧ rl.Cursor.Offset = rl.Cursor.TotalRecords
            ∧ w.results = rs ++ [rl])) := by
  obtain ⟨rs, sk, fk, hcont, -, hreq, hout⟩ :=
    getQueryResultsLoop_returned volumeManager fuel _ _ _ _ _ hrun
  refine ⟨rs, sk, fk, hcont, by simpa using hreq, ?_, ?_⟩
  · rw [hreq]
    simp [prefixRequests_length]
  · rcases hout with ⟨r, e, -, -, herr⟩ | ⟨hq, hres, -⟩ | ⟨rl, hq, hstop, hres, -⟩
    · rw [hok] at herr
      exact absurd herr (by simp)
    · exact Or.inl ⟨hq, by simpa using hres⟩
    · exact Or.inr ⟨rl, hq, hstop, by simpa using hres⟩

/-- Witness for C12: the walk over the five example records with page size 2
returns three pages without error. -/
theorem getQueryResults_returned_pages_witness :
    ∃ w : Walk Unit,
      getQueryResults 2 5 [] "cluster-1" (pagedManager exRecords) () = some w
      ∧ w.err = none
      ∧ ∃ rs sk fk,
        ContinuingPrefix (pagedManager exRecords) ()
          (initialQueryFilter 2 [] "cluster-1") rs sk fk
        ∧ w.requests = prefixRequests (initialQueryFilter 2 [] "cluster-1") rs ++ [fk]
        ∧ w.requests.length = rs.length + 1
        ∧ (((pagedManager exRecords).QueryVolume sk fk = ((none, none), w.backend)
              ∧ w.results = rs)
          ∨ (∃ rl, (pagedManager exRecords).QueryVolume sk fk = ((some rl, none), w.backend)
              ∧ rl.Cursor.Offset = rl.Cursor.TotalRecords
              ∧ w.results = rs ++ [rl])) :=
  ⟨_, rfl, rfl,
    getQueryResults_returned_pages (pagedManager exRecords) 2 [] "cluster-1" 5 () _ rfl rfl⟩

/-! ## The volume state filters: failure and ownership -/

theorem mem_getPVsInBoundAvailableOrReleased (driverName : String)
    (metadataSyncer : metadataSyncInformer) (allPVs : List PersistentVolume)
    (hlist : metadataSyncer.pvLister.List = (allPVs, none)) (pv : PersistentVolume) :
    pv ∈ (getPVsInBoundAvailableOrReleased driverName metadataSyncer).1 ↔
      pv ∈ allPVs ∧ isDriverCSI driverName pv = true
        ∧ (pv.Status.Phase = VolumeBound ∨ pv.Status.Phase = VolumeAvailable
            ∨ pv.Status.Phase = VolumeReleased) := by
  unfold getPVsInBoundAvailableOrReleased
  rw [hlist]
  simp only [foldl_select, List.nil_append]
  simp only [List.mem_filter, Bool.and_eq_true, Bool.or_eq_true, beq_iff_eq, or_assoc]

theorem mem_getBoundPVs (driverName : String)
    (metadataSyncer : metadataSyncInformer) (allPVs : List PersistentVolume)
    (hlist : metadataSyncer.pvLister.List = (allPVs, none)) (pv : PersistentVolume) :
    pv ∈ (getBoundPVs driverName metadataSyncer).1 ↔
      pv ∈ allPVs ∧ isDriverCSI driverName pv = true ∧ pv.Status.Phase = VolumeBound := by
  unfold getBoundPVs
  rw [hlist]
  simp only [foldl_select, List.nil_append]
  simp only [List.mem_filter, Bool.and_eq_true, beq_iff_eq]

/-- C13: the two filters return the error of the PV cache listing and no other: the
error they return is the listing's error (nil exactly when the listing's is);
when the listing fails with `e` both return `(nil, e)`; when the listing succeeds
both return a nil error, whatever the listed PVs. -/
theorem filters_fail_iff_listing_fails (driverName : String)
    (metadataSyncer : metadataSyncInformer) :
    (getPVsInBoundAvailableOrReleased driverName metadataSyncer).2
        = metadataSyncer.pvLister.List.2
    ∧ (getBoundPVs driverName metadataSyncer).2 = metadataSyncer.pvLister.List.2
    ∧ (∀ e, metadataSyncer.pvLister.List.2 = some e →
        getPVsInBoundAvailableOrReleased driverName metadataSyncer = ([], some e)
        ∧ getBoundPVs driverName metadataSyncer = ([], some e))
    ∧ (∀ allPVs, metadataSyncer.pvLister.List = (allPVs, none) →
        (getPVsInBoundAvailableOrReleased driverName metadataSyncer).2 = none
        ∧ (getBoundPVs driverName metadataSyncer).2 = none) := by
  unfold getPVsInBoundAvailableOrReleased getBoundPVs
  rcases hl : metadataSyncer.pvLister.List with ⟨allPVs, err⟩
  cases err with
  | none => simp
  | some e => simp

/-- Witness for C13: a cache whose listing fails, and the example cache, none of
whose Pending or Failed volumes makes the filters fail. -/
theorem filters_fail_iff_listing_fails_witness :
    (getPVsInBoundAvailableOrReleased exDriver exFailingSyncer
        = ([], some { message := "cache not synced" })
      ∧ getBoundPVs exDriver exFailingSyncer = ([], some { message := "cache not synced" }))
    ∧ ((getPVsInBoundAvailableOrReleased exDriver (exSyncer true)).2 = none
      ∧ (getBoundPVs exDriver (exSyncer true)).2 = none) :=
  ⟨(filters_fail_iff_listing_fails exDriver exFailingSyncer).2.2.1 _ rfl,
    (filters_fail_iff_listing_fails exDriver (exSyncer true)).2.2.2 exPVs rfl⟩

/-- C14, as stated, fails: `pv-intree` is listed, is a legacy-plugin volume
(`VsphereVolume` non-nil), the migration flag is enabled and its phase is Bound,
yet neither filter includes it. -/
theorem filters_skip_legacy_volume :
    (exSyncer true).pvLister.List = (exPVs, none)
    ∧ exPV "pv-intree" none true VolumeBound ∈ exPVs
    ∧ (exPV "pv-intree" none true VolumeBound).Spec.VsphereVolume ≠ none
    ∧ (exSyncer true).CSIMigration = true
    ∧ (exPV "pv-intree" none true VolumeBound).Status.Phase = VolumeBound
    ∧ exPV "pv-intree" none true VolumeBound
        ∉ (getPVsInBoundAvailableOrReleased exDriver (exSyncer true)).1
    ∧ exPV "pv-intree" none true VolumeBound ∉ (getBoundPVs exDriver (exSyncer true)).1 :=
  ⟨rfl, by decide, by decide, rfl, rfl, by decide, by decide⟩

/-- C14, amended: for a listed PV that has a CSI spec whose driver is this driver's
name, the broad filter includes it exactly when its phase is Bound, Available or
Released and the narrow filter exactly when its phase is Bound; a listed PV
without such a CSI spec is included by neither filter, whatever its
`VsphereVolume` source, the migration flag and its phase. -/
theorem filters_on_listed_volume (driverName : String)
    (metadataSyncer : metadataSyncInformer) (allPVs : List PersistentVolume)
    (pv : PersistentVolume)
    (hlist : metadataSyncer.pvLister.List = (allPVs, none)) (hmem : pv ∈ allPVs) :
    ((∃ csi, pv.Spec.CSI = some csi ∧ csi.Driver = driverName) →
      (pv ∈ (getPVsInBoundAvailableOrReleased driverName metadataSyncer).1 ↔
        (pv.Status.Phase = VolumeBound ∨ pv.Status.Phase = VolumeAvailable
          ∨ pv.Status.Phase = VolumeReleased))
      ∧ (pv ∈ (getBoundPVs driverName metadataSyncer).1 ↔ pv.Status.Phase = VolumeBound))
    ∧ (¬ (∃ csi, pv.Spec.CSI = some csi ∧ csi.Driver = driverName) →
      pv ∉ (getPVsInBoundAvailableOrReleased driverName metadataSyncer).1
      ∧ pv ∉ (getBoundPVs driverName metadataSyncer).1) := by
  have hb := mem_getPVsInBoundAvailableOrReleased driverName metadataSyncer allPVs hlist pv
  have hn := mem_getBoundPVs driverName metadataSyncer allPVs hlist pv
  have hd := isDriverCSI_iff driverName pv
  constructor
  · intro hown
    have hcsi := hd.2 hown
    rw [hb, hn]
    simp [hmem, hcsi]
  · intro hown
    have hcsi : ¬ isDriverCSI driverName pv = true := fun h => hown (hd.1 h)
    rw [hb, hn]
    simp [hcsi]

/-- Witness for C14, amended: the Released CSI volume of the driver is in the broad
result and not in the narrow one. -/
theorem filters_on_listed_volume_witness :
    (exPV "pv-released" (some exDriver) false VolumeReleased
        ∈ (getPVsInBoundAvailableOrReleased exDriver (exSyncer true)).1 ↔
      ((exPV "pv-released" (some exDriver) false VolumeReleased).Status.Phase = VolumeBound
        ∨ (exPV "pv-released" (some exDriver) false VolumeReleased).Status.Phase
            = VolumeAvailable
        ∨ (exPV "pv-released" (some exDriver) false VolumeReleased).Status.Phase
            = VolumeReleased))
    ∧ (exPV "pv-released" (some exDriver) false VolumeReleased
        ∈ (getBoundPVs exDriver (exSyncer true)).1 ↔
      (exPV "pv-released" (some exDriver) false VolumeReleased).Status.Phase = VolumeBound) :=
  (filters_on_listed_volume exDriver (exSyncer true) exPVs
    (exPV "pv-released" (some exDriver) false VolumeReleased) rfl (by decide)).1
    ⟨{ Driver := exDriver, VolumeHandle := "pv-released-handle" }, rfl, rfl⟩

/-! ## The object key resolver -/

/-- C15: for an object with name `n` and non-empty namespace `ns`, `getPVCKey` returns
the key `ns/n` with no error for the live object and for a tombstone wrapping it,
whatever key `k` the tombstone stores. -/
theorem getPVCKey_object (n ns k : String) (hns : ns ≠ "") :
    getPVCKey (.object { Name := n, Namespace := ns }) = (ns ++ "/" ++ n, none)
    ∧ getPVCKey (.tombstone k (.object { Name := n, Namespace := ns }))
        = (ns ++ "/" ++ n, none)
    ∧ getPVCKey (.tombstone k (.object { Name := n, Namespace := ns }))
        = getPVCKey (.object { Name := n, Namespace := ns }) := by
  simp [getPVCKey, DeletionHandlingMetaNamespaceKeyFunc, MetaNamespaceKeyFunc, hns]

/-- Witness for C15: the claim `claim-bound` of namespace `ns`, live and under a
tombstone that stores a stale key. -/
theorem getPVCKey_object_witness :
    getPVCKey (.object { Name := "claim-bound", Namespace := "ns" })
        = ("ns" ++ "/" ++ "claim-bound", none)
    ∧ getPVCKey (.tombstone "old/key" (.object { Name := "claim-bound", Namespace := "ns" }))
        = ("ns" ++ "/" ++ "claim-bound", none)
    ∧ getPVCKey (.tombstone "old/key" (.object { Name := "claim-bound", Namespace := "ns" }))
        = getPVCKey (.object { Name := "claim-bound", Namespace := "ns" }) :=
  getPVCKey_object "claim-bound" "ns" "old/key" (by decide)

/-- C16, as stated, fails: for a tombstone whose wrapped object is nil, `getPVCKey`
does not fail; it returns the key stored in the tombstone and a nil error. -/
theorem getPVCKey_tombstone_without_object :
    getPVCKey (.tombstone "ns/claim-bound" .nil) = ("ns/claim-bound", none)
    ∧ (getPVCKey (.tombstone "ns/claim-bound" .nil)).2 = none
    ∧ (getPVCKey (.tombstone "ns/claim-bound" .nil)).1 ≠ "" := by
  decide

/-- C16, amended: `getPVCKey` fails exactly when the payload, or the object wrapped
by a tombstone payload, is a value without metadata (the nil interface as a
payload included); a tombstone whose wrapped object is nil gives the tombstone's
stored key with no error; and whenever `getPVCKey` fails the returned key is the
empty string. -/
theorem getPVCKey_failure :
    (∀ obj, (getPVCKey obj).2 ≠ none ↔
      (obj = .nil ∨ (∃ d, obj = .other d) ∨ (∃ k d, obj = .tombstone k (.other d))))
    ∧ (∀ k, getPVCKey (.tombstone k .nil) = (k, none))
    ∧ (∀ obj, (getPVCKey obj).2 ≠ none → (getPVCKey obj).1 = "") := by
  have hfail : ∀ obj, (getPVCKey obj).2 ≠ none ↔
      (obj = .nil ∨ (∃ d, obj = .other d) ∨ (∃ k d, obj = .tombstone k (.other d))) := by
    intro obj
    cases obj with
      | nil => simp [getPVCKey, DeletionHandlingMetaNamespaceKeyFunc, MetaNamespaceKeyFunc]
      | object m =>
        by_cases h : m.Namespace = "" <;>
          simp [getPVCKey, DeletionHandlingMetaNamespaceKeyFunc, MetaNamespaceKeyFunc, h]
      | explicitKey key =>
        simp [getPVCKey, DeletionHandlingMetaNamespaceKeyFunc, MetaNamespaceKeyFunc]
      | other d => simp [getPVCKey, DeletionHandlingMetaNamespaceKeyFunc, MetaNamespaceKeyFunc]
      | tombstone k wrapped =>
        cases wrapped with
        | nil => simp [getPVCKey, DeletionHandlingMetaNamespaceKeyFunc, MetaNamespaceKeyFunc]
        | object m =>
          by_cases h : m.Namespace = "" <;>
            simp [getPVCKey, DeletionHandlingMetaNamespaceKeyFunc, MetaNamespaceKeyFunc, h]
        | explicitKey key =>
          simp [getPVCKey, DeletionHandlingMetaNamespaceKeyFunc, MetaNamespaceKeyFunc]
        | other d =>
          simp [getPVCKey, DeletionHandlingMetaNamespaceKeyFunc, MetaNamespaceKeyFunc]
        | tombstone k2 inner =>
          simp [getPVCKey, DeletionHandlingMetaNamespaceKeyFunc, MetaNamespaceKeyFunc]
  refine ⟨hfail, ?_, ?_⟩
  · intro k
    simp [getPVCKey, DeletionHandlingMetaNamespaceKeyFunc]
  · intro obj h
    rcases (hfail obj).1 h with rfl | ⟨d, rfl⟩ | ⟨k, d, rfl⟩ <;>
      simp [getPVCKey, DeletionHandlingMetaNamespaceKeyFunc, MetaNamespaceKeyFunc]

/-! ## The annotation transition detector: one edge per history -/

theorem hasMigratedTo_true_iff (k : String) (prev new : StringMap) :
    HasMigratedToAnnotation k prev new = true ↔ new.HasKey k ∧ ¬ prev.HasKey k := by
  rw [← StringMap.index_found_iff new k, ← StringMap.index_found_iff prev k]
  unfold HasMigratedToAnnotation
  cases (new.index k).2 <;> cases (prev.index k).2 <;> simp

theorem hasKey_decide (m : StringMap) (k : String) (h : (m.index k).2 = true) :
    m.HasKey k := (StringMap.index_found_iff m k).1 h

theorem not_hasKey_decide (m : StringMap) (k : String) (h : (m.index k).2 = false) :
    ¬ m.HasKey k := by
  intro hk
  rw [(StringMap.index_found_iff m k).2 hk] at h
  exact Bool.noConfusion h

/-- C17, as stated, fails: the marker key is found in the newer map, and also in the
previous one, and `HasMigratedToAnnotation` returns false. -/
theorem hasMigratedTo_false_when_in_both :
    StringMap.HasKey (some [("migrated-to", "csi")]) "migrated-to"
    ∧ HasMigratedToAnnotation "migrated-to" (some [("migrated-to", "csi")])
        (some [("migrated-to", "csi")]) = false :=
  ⟨⟨_, "csi", rfl, by decide⟩, by decide⟩

/-- C17, amended: if the marker key is found in the newer map,
`HasMigratedToAnnotation prev new` returns true when the key is not found in the
previous map, and false when it is found there too. -/
theorem hasMigratedTo_when_in_new (k : String) (prev new : StringMap)
    (hnew : new.HasKey k) :
    (¬ prev.HasKey k → HasMigratedToAnnotation k prev new = true)
    ∧ (prev.HasKey k → HasMigratedToAnnotation k prev new = false) := by
  have hiff := hasMigratedTo_true_iff k prev new
  constructor
  · intro hprev
    exact hiff.2 ⟨hnew, hprev⟩
  · intro hprev
    cases hb : HasMigratedToAnnotation k prev new with
    | false => rfl
    | true => exact absurd hprev (hiff.1 hb).2

/-- Witness for C17, amended: the marker appears in the newer map only. -/
theorem hasMigratedTo_when_in_new_witness :
    HasMigratedToAnnotation "migrated-to" (some [("owner", "team-a")])
      (some [("owner", "team-a"), ("migrated-to", "csi")]) = true :=
  (hasMigratedTo_when_in_new "migrated-to" (some [("owner", "team-a")])
    (some [("owner", "team-a"), ("migrated-to", "csi")])
    (hasKey_decide _ _ (by decide))).1 (not_hasKey_decide _ _ (by decide))

theorem hasKey_persists (k : String) (a : Nat → StringMap) (n : Nat)
    (hkeep : ∀ i, i < n → (a i).HasKey k → (a (i + 1)).HasKey k)
    (i : Nat) (hi : (a i).HasKey k) (d : Nat) (hd : i + d ≤ n) : (a (i + d)).HasKey k := by
  induction d with
  | zero => simpa using hi
  | succ d ih =>
    have := hkeep (i + d) (by omega) (ih (by omega))
    simpa [Nat.add_assoc] using this

/-- C18: in a history `a 0, ..., a n` of annotation snapshots in which the marker,
once present, is never removed, `HasMigratedToAnnotation (a i) (a (i+1))` is true
for at most one step `i`; at that step the marker is absent from every snapshot
up to `a i` and present in every later one, and the detector is false on every
other step, every later one included. -/
theorem hasMigratedTo_at_most_once (k : String) (a : Nat → StringMap) (n : Nat)
    (hkeep : ∀ i, i < n → (a i).HasKey k → (a (i + 1)).HasKey k) :
    (∀ i j, i < n → j < n →
      HasMigratedToAnnotation k (a i) (a (i + 1)) = true →
      HasMigratedToAnnotation k (a j) (a (j + 1)) = true → i = j)
    ∧ (∀ i, i < n → HasMigratedToAnnotation k (a i) (a (i + 1)) = true →
        (∀ j, j ≤ i → ¬ (a j).HasKey k)
        ∧ (∀ j, i < j → j ≤ n → (a j).HasKey k)
        ∧ (∀ j, j < n → j ≠ i → HasMigratedToAnnotation k (a j) (a (j + 1)) = false)) := by
  have hstep : ∀ i, i < n → HasMigratedToAnnotation k (a i) (a (i + 1)) = true →
      (∀ j, j ≤ i → ¬ (a j).HasKey k)
      ∧ (∀ j, i < j → j ≤ n → (a j).HasKey k)
      ∧ (∀ j, j < n → j ≠ i → HasMigratedToAnnotation k (a j) (a (j + 1)) = false) := by
    intro i hi htrue
    obtain ⟨hnew, hprev⟩ := (hasMigratedTo_true_iff k _ _).1 htrue
    have hbefore : ∀ j, j ≤ i → ¬ (a j).HasKey k := by
      intro j hj hkj
      have := hasKey_persists k a n hkeep j hkj (i - j) (by omega)
      rw [Nat.add_sub_cancel' hj] at this
      exact hprev this
    have hafter : ∀ j, i < j → j ≤ n → (a j).HasKey k := by
      intro j hij hjn
      have := hasKey_persists k a n hkeep (i + 1) hnew (j - (i + 1)) (by omega)
      rw [Nat.add_sub_cancel' hij] at this
      exact this
    refine ⟨hbefore, hafter, ?_⟩
    intro j hj hne
    cases hb : HasMigratedToAnnotation k (a j) (a (j + 1)) with
    | false => rfl
    | true =>
      obtain ⟨hnewj, hprevj⟩ := (hasMigratedTo_true_iff k _ _).1 hb
      rcases Nat.lt_or_gt_of_ne hne with hlt | hgt
      · exact absurd hnewj (hbefore (j + 1) hlt)
      · exact absurd (hafter j hgt (by omega)) hprevj
  refine ⟨?_, hstep⟩
  intro i j hi hj hti htj
  by_contra hne
  have := (hstep i hi hti).2.2 j hj (fun h => hne h.symm)
  rw [htj] at this
  exact Bool.noConfusion this

theorem exSnapshots_keep (i : Nat) (hk : (exSnapshots i).HasKey "migrated-to") :
    (exSnapshots (i + 1)).HasKey "migrated-to" := by
  by_cases h : i + 1 < 2
  · have h0 : i = 0 := by omega
    subst h0
    exact absurd hk (not_hasKey_decide _ _ (by decide))
  · apply hasKey_decide
    simp [exSnapshots, h, StringMap.index, List.lookup]

/-- Witness for C18: in the example history the marker appears at the step from
snapshot 1 to snapshot 2; the step before it and the steps after it are not
reported. -/
theorem hasMigratedTo_at_most_once_witness :
    HasMigratedToAnnotation "migrated-to" (exSnapshots 1) (exSnapshots (1 + 1)) = true
    ∧ HasMigratedToAnnotation "migrated-to" (exSnapshots 0) (exSnapshots (0 + 1)) = false
    ∧ HasMigratedToAnnotation "migrated-to" (exSnapshots 2) (exSnapshots (2 + 1)) = false
    ∧ HasMigratedToAnnotation "migrated-to" (exSnapshots 4) (exSnapshots (4 + 1)) = false :=
  ⟨by decide,
    ((hasMigratedTo_at_most_once "migrated-to" exSnapshots 5
      (fun i _ hk => exSnapshots_keep i hk)).2 1 (by decide) (by decide)).2.2 0
        (by decide) (by decide),
    ((hasMigratedTo_at_most_once "migrated-to" exSnapshots 5
      (fun i _ hk => exSnapshots_keep i hk)).2 1 (by decide) (by decide)).2.2 2
        (by decide) (by decide),
    ((hasMigratedTo_at_most_once "migrated-to" exSnapshots 5
      (fun i _ hk => exSnapshots_keep i hk)).2 1 (by decide) (by decide)).2.2 4
        (by decide) (by decide)⟩

/-! ## The paginated walk: termination and the order of offsets -/

theorem strictManager_response (records : List CnsVolume) (s s1 : Unit)
    (f : CnsQueryFilter) (r : CnsQueryResult)
    (h : (strictManager records).QueryVolume s f = ((some r, none), s1)) :
    f.Cursor.Offset < r.Cursor.Offset ∧ r.Cursor.Offset ≤ (records.length : Int)
      ∧ r.Cursor.TotalRecords = (records.length : Int) := by
  unfold strictManager at h
  simp only at h
  split at h
  · rename_i hc
    obtain ⟨h0, hT, hL⟩ := hc
    simp only [Prod.mk.injEq, Option.some.injEq, and_true] at h
    subst h
    have ho : ((f.Cursor.Offset.toNat : Nat) : Int) = f.Cursor.Offset :=
      Int.toNat_of_nonneg h0
    have hl : ((f.Cursor.Limit.toNat : Nat) : Int) = f.Cursor.Limit :=
      Int.toNat_of_nonneg (le_of_lt hL)
    simp only [pageResult]
    refine ⟨?_, ?_, trivial⟩
    · rw [Nat.cast_min, Nat.cast_add, ho, hl]
      exact lt_min (by omega) hT
    · exact Int.ofNat_le.2 (min_le_right _ _)
  · simp at h

theorem getQueryResultsLoop_terminates {σ : Type} (volumeManager : Manager σ) (T : Nat)
    (m : Nat) :
    ∀ (s : σ) (f : CnsQueryFilter) (acc : List CnsQueryResult)
      (issued : List CnsQueryFilter),
      (∀ rs sk fk r s1, ContinuingPrefix volumeManager s f rs sk fk →
        volumeManager.QueryVolume sk fk = ((some r, none), s1) →
        fk.Cursor.Offset < r.Cursor.Offset ∧ r.Cursor.Offset ≤ (T : Int)
          ∧ r.Cursor.TotalRecords = (T : Int)) →
      (T : Int) - f.Cursor.Offset ≤ (m : Int) → 1 ≤ m →
      ∃ w, getQueryResultsLoop volumeManager m s f acc issued = some w := by
  induction m with
  | zero => intro s f acc issued _ _ h1; omega
  | succ m ih =>
    intro s f acc issued hprog hm _
    unfold getQueryResultsLoop
    rcases hq : volumeManager.QueryVolume s f with ⟨⟨r, e⟩, s1⟩
    cases e with
    | some err => simp
    | none =>
      cases r with
      | none => simp
      | some r =>
        by_cases hstop : r.Cursor.Offset = r.Cursor.TotalRecords
        · simp [hstop]
        · simp only [hstop, if_false]
          obtain ⟨h1, h2, h3⟩ := hprog [] s f r s1 (ContinuingPrefix.done s f) hq
          have hne : r.Cursor.Offset ≠ r.Cursor.TotalRecords := hstop
          rw [h3] at hstop
          refine ih s1 _ _ _ ?_ (by simp only; omega) (by omega)
          intro rs sk fk r2 s2 hcont hq2
          exact hprog (r :: rs) sk fk r2 s2 (ContinuingPrefix.step hq hne hcont) hq2

/-- C19, as stated, fails: every successful, non-nil response of the backend
satisfies the progress condition with `T = 5` (it has none: its first query
fails), and the walk ends after one query with the error and no page at all, so
with no last page of offset `T`; the backend that answers its first query with a
nil result satisfies the condition with `T = 0` and the walk issues one query,
more than `T`. -/
theorem getQueryResults_no_last_page :
    (∀ s f r s1,
      (scriptedManager [(none, some { message := "ServerFaultCode" })]).QueryVolume s f
          = ((some r, none), s1) →
        f.Cursor.Offset < r.Cursor.Offset ∧ r.Cursor.Offset ≤ 5 ∧ r.Cursor.TotalRecords = 5)
    ∧ (∃ w : Walk Nat,
        getQueryResults 2 5 [] "cluster-1"
          (scriptedManager [(none, some { message := "ServerFaultCode" })]) 0 = some w
        ∧ w.results = [] ∧ w.results.getLast? = none
        ∧ w.err = some { message := "ServerFaultCode" })
    ∧ (∀ s f r s1, (scriptedManager []).QueryVolume s f = ((some r, none), s1) →
        f.Cursor.Offset < r.Cursor.Offset ∧ r.Cursor.Offset ≤ 0 ∧ r.Cursor.TotalRecords = 0)
    ∧ (∃ w : Walk Nat,
        getQueryResults 2 5 [] "cluster-1" (scriptedManager []) 0 = some w
        ∧ w.results = [] ∧ w.err = none ∧ w.requests.length = 1) := by
  refine ⟨?_, ⟨_, rfl, rfl, rfl, rfl⟩, ?_, ⟨_, rfl, rfl, rfl, rfl⟩⟩
  · intro s f r s1 h
    cases s <;> simp [scriptedManager] at h
  · intro s f r s1 h
    simp [scriptedManager] at h

/-- C19, amended: if each successful, non-nil response that the walk receives
returns a cursor whose offset is strictly greater than the offset of the request
it answers and at most `T`, with `TotalRecords = T`, then `getQueryResults`
returns after at most `max 1 T` queries.  The returned walk is made of the
backend's answers: its first queries were answered with the continuing pages
`rs`, and its last query `fk` either failed with `e`, and `(nil, e)` is returned;
or was answered with a nil result, and the pages `rs` are returned; or was
answered with a page `rl` whose offset equals `T`, and `rs` followed by `rl` is
returned, `rl` being the last page. -/
theorem getQueryResults_terminates {σ : Type} (volumeManager : Manager σ)
    (queryVolumeLimit : Int) (volumeIds : List CnsVolumeId) (clusterID : String)
    (T : Nat) (s0 : σ)
    (hprog : ∀ rs sk fk r s1,
      ContinuingPrefix volumeManager s0
        (initialQueryFilter queryVolumeLimit volumeIds clusterID) rs sk fk →
      volumeManager.QueryVolume sk fk = ((some r, none), s1) →
      fk.Cursor.Offset < r.Cursor.Offset ∧ r.Cursor.Offset ≤ (T : Int)
        ∧ r.Cursor.TotalRecords = (T : Int)) :
    ∃ (w : Walk σ) (rs : List CnsQueryResult) (sk : σ) (fk : CnsQueryFilter),
      (∀ fuel, max 1 T ≤ fuel →
        getQueryResults queryVolumeLimit fuel volumeIds clusterID volumeManager s0 = some w)
      ∧ ContinuingPrefix volumeManager s0
          (initialQueryFilter queryVolumeLimit volumeIds clusterID) rs sk fk
      ∧ w.requests
          = prefixRequests (initialQueryFilter queryVolumeLimit volumeIds clusterID) rs ++ [fk]
      ∧ w.requests.length = rs.length + 1
      ∧ w.requests.length ≤ max 1 T
      ∧ ((∃ r e, volumeManager.QueryVolume sk fk = ((r, some e), w.backend)
            ∧ w.results = [] ∧ w.err = some e)
        ∨ (volumeManager.QueryVolume sk fk = ((none, none), w.backend)
            ∧ w.results = rs ∧ w.err = none)
        ∨ (∃ rl, volumeManager.QueryVolume sk fk = ((some rl, none), w.backend)
            ∧ rl.Cursor.Offset = (T : Int) ∧ rl.Cursor.TotalRecords = (T : Int)
            ∧ w.results = rs ++ [rl] ∧ w.results.getLast? = some rl
            ∧ w.err = none)) := by
  have hc := initialQueryFilter_cursor queryVolumeLimit volumeIds clusterID
  obtain ⟨w, hw⟩ := getQueryResultsLoop_terminates volumeManager T (max 1 T) s0
    (initialQueryFilter queryVolumeLimit volumeIds clusterID) [] [] hprog
    (by rw [hc]; simp only; omega) (le_max_left _ _)
  obtain ⟨rs, sk, fk, hcont, hlen, hreq, hout⟩ :=
    getQueryResultsLoop_returned volumeManager _ _ _ _ _ _ hw
  have hreq1 : w.requests
      = prefixRequests (initialQueryFilter queryVolumeLimit volumeIds clusterID) rs ++ [fk] := by
    simpa using hreq
  have hreqlen : w.requests.length = rs.length + 1 := by
    rw [hreq1]; simp [prefixRequests_length]
  refine ⟨w, rs, sk, fk, fun fuel hfuel =>
    getQueryResultsLoop_fuel_le volumeManager _ fuel hfuel _ _ _ _ _ hw, hcont, hreq1,
    hreqlen, by omega, ?_⟩
  rcases hout with ⟨r, e, hq, hres, herr⟩ | ⟨hq, hres, herr⟩ | ⟨rl, hq, hstop, hres, herr⟩
  · exact Or.inl ⟨r, e, hq, hres, herr⟩
  · exact Or.inr (Or.inl ⟨hq, by simpa using hres, herr⟩)
  · obtain ⟨-, -, h3⟩ := hprog rs sk fk rl w.backend hcont hq
    have hres1 : w.results = rs ++ [rl] := by simpa using hres
    exact Or.inr (Or.inr ⟨rl, hq, hstop.trans h3, h3, hres1, by rw [hres1]; simp, herr⟩)

/-- Witness for C19, amended: against the backend that pages through the five
example records and refuses out-of-range cursors, the walk issues the offsets
0, 2, 4, within the bound of five queries, and returns the three pages the
backend answered, the last with offset 5 of 5. -/
theorem getQueryResults_terminates_witness :
    ∃ (w : Walk Unit) (rs : List CnsQueryResult) (sk : Unit) (fk : CnsQueryFilter),
      (∀ fuel, max 1 5 ≤ fuel →
        getQueryResults 2 fuel [] "cluster-1" (strictManager exRecords) () = some w)
      ∧ ContinuingPrefix (strictManager exRecords) ()
          (initialQueryFilter 2 [] "cluster-1") rs sk fk
      ∧ w.requests = prefixRequests (initialQueryFilter 2 [] "cluster-1") rs ++ [fk]
      ∧ w.requests.length = rs.length + 1
      ∧ w.requests.length ≤ max 1 5
      ∧ ((∃ r e, (strictManager exRecords).QueryVolume sk fk = ((r, some e), w.backend)
            ∧ w.results = [] ∧ w.err = some e)
        ∨ ((strictManager exRecords).QueryVolume sk fk = ((none, none), w.backend)
            ∧ w.results = rs ∧ w.err = none)
        ∨ (∃ rl, (strictManager exRecords).QueryVolume sk fk = ((some rl, none), w.backend)
            ∧ rl.Cursor.Offset = ((5 : Nat) : Int) ∧ rl.Cursor.TotalRecords = ((5 : Nat) : Int)
            ∧ w.results = rs ++ [rl] ∧ w.results.getLast? = some rl
            ∧ w.err = none))
      ∧ w.requests.map (fun q => q.Cursor.Offset) = [0, 2, 4]
      ∧ w.results = [pageResult exRecords 0 2, pageResult exRecords 2 2,
          pageResult exRecords 4 2]
      ∧ w.err = none := by
  obtain ⟨w, rs, sk, fk, hrun, hcont, hreq, hlen, hbound, hout⟩ :=
    getQueryResults_terminates (strictManager exRecords) 2 [] "cluster-1" 5 ()
      (fun _ sk fk r s1 _ h => strictManager_response exRecords sk s1 fk r h)
  have hw : getQueryResults 2 5 [] "cluster-1" (strictManager exRecords) () = some w :=
    hrun 5 (by decide)
  have hconcrete : getQueryResults 2 5 [] "cluster-1" (strictManager exRecords) ()
      = some { results := [pageResult exRecords 0 2, pageResult exRecords 2 2,
                 pageResult exRecords 4 2]
               err := none
               requests := [initialQueryFilter 2 [] "cluster-1",
                 { initialQueryFilter 2 [] "cluster-1" with
                   Cursor := (pageResult exRecords 0 2).Cursor },
                 { initialQueryFilter 2 [] "cluster-1" with
                   Cursor := (pageResult exRecords 2 2).Cursor }]
               backend := () } := rfl
  rw [hconcrete] at hw
  have hweq := Option.some.inj hw
  refine ⟨w, rs, sk, fk, hrun, hcont, hreq, hlen, hbound, hout, ?_, ?_, ?_⟩
  · rw [← hweq]; decide
  · rw [← hweq]
  · rw [← hweq]

theorem continuing_offsets {σ : Type} (volumeManager : Manager σ)
    (hresp : ∀ s f r s1, volumeManager.QueryVolume s f = ((some r, none), s1) →
      f.Cursor.Offset ≤ r.Cursor.Offset ∧ r.Cursor.Offset ≤ r.Cursor.TotalRecords)
    {s sk : σ} {f fk : CnsQueryFilter} {rs : List CnsQueryResult}
    (hcont : ContinuingPrefix volumeManager s f rs sk fk)
    (hf : f.Cursor.Offset ≤ f.Cursor.TotalRecords) :
    OffsetsInOrder (prefixRequests f rs ++ [fk])
      ∧ ∀ q ∈ prefixRequests f rs ++ [fk], f.Cursor.Offset ≤ q.Cursor.Offset := by
  induction hcont with
  | done s f =>
    refine ⟨⟨by simp [prefixRequests], ?_⟩, ?_⟩
    · intro q hq
      simp only [prefixRequests, List.nil_append, List.mem_singleton] at hq
      subst hq
      exact hf
    · intro q hq
      simp only [prefixRequests, List.nil_append, List.mem_singleton] at hq
      subst hq
      exact le_refl _
  | step hq hne hrest ih =>
    rename_i s s1 sk f fk r rs
    obtain ⟨h1, h2⟩ := hresp _ _ _ _ hq
    obtain ⟨⟨hpair, hle⟩, hfrom⟩ := ih h2
    have hfrom1 : ∀ q ∈ prefixRequests { f with Cursor := r.Cursor } rs ++ [fk],
        f.Cursor.Offset ≤ q.Cursor.Offset := fun q hq => le_trans h1 (hfrom q hq)
    refine ⟨⟨?_, ?_⟩, ?_⟩
    · simp only [prefixRequests, List.cons_append, List.map_cons, List.pairwise_cons]
      refine ⟨?_, hpair⟩
      intro x hx
      obtain ⟨q, hqmem, rfl⟩ := List.mem_map.1 hx
      exact hfrom1 q hqmem
    · intro q hqmem
      simp only [prefixRequests, List.cons_append, List.mem_cons] at hqmem
      rcases hqmem with rfl | hqmem
      · exact hf
      · exact hle q hqmem
    · intro q hqmem
      simp only [prefixRequests, List.cons_append, List.mem_cons] at hqmem
      rcases hqmem with rfl | hqmem
      · exact le_refl _
      · exact hfrom1 q hqmem

/-- C20, as stated, fails: the backend returns the cursors 5 of 9, 3 of 9, 12 of 9
and 9 of 9; the walk carries each into its next request, so the request offsets
are 0, 5, 3, 12: they decrease from 5 to 3, and the last request carries offset 12
with `TotalRecords` 9. -/
theorem getQueryResults_carries_any_cursor :
    ∃ w : Walk Nat,
      getQueryResults 2 10 [] "cluster-1" (scriptedManager exWildScript) 0 = some w
      ∧ w.requests.map (fun q => (q.Cursor.Offset, q.Cursor.TotalRecords))
          = [(0, 0), (5, 9), (3, 9), (12, 9)]
      ∧ ¬ List.Pairwise (fun a b => a ≤ b) (w.requests.map (fun q => q.Cursor.Offset))
      ∧ (∃ q ∈ w.requests, q.Cursor.TotalRecords < q.Cursor.Offset)
      ∧ ¬ OffsetsInOrder w.requests :=
  ⟨_, rfl, by decide, by decide, by decide, fun h => absurd h.1 (by decide)⟩

/-- C20, amended: if each successful, non-nil response of the backend returns a
cursor whose offset is at least the offset of the request it answers and at most
the `TotalRecords` it reports, then in every walk of `getQueryResults`, returned
or not, the offsets of the successive requests never decrease and no request
carries an offset greater than the `TotalRecords` it carries.  The walk does not
enforce this by itself: it forwards the cursor the backend returns. -/
theorem getQueryResults_offsets_in_order {σ : Type} (volumeManager : Manager σ)
    (queryVolumeLimit : Int) (volumeIds : List CnsVolumeId) (clusterID : String) (s0 : σ)
    (hresp : ∀ s f r s1, volumeManager.QueryVolume s f = ((some r, none), s1) →
      f.Cursor.Offset ≤ r.Cursor.Offset ∧ r.Cursor.Offset ≤ r.Cursor.TotalRecords) :
    (∀ rs sk fk,
      ContinuingPrefix volumeManager s0
        (initialQueryFilter queryVolumeLimit volumeIds clusterID) rs sk fk →
      OffsetsInOrder
        (prefixRequests (initialQueryFilter queryVolumeLimit volumeIds clusterID) rs ++ [fk]))
    ∧ (∀ fuel w,
      getQueryResults queryVolumeLimit fuel volumeIds clusterID volumeManager s0 = some w →
      OffsetsInOrder w.requests) := by
  have hc := initialQueryFilter_cursor queryVolumeLimit volumeIds clusterID
  have h0 : (initialQueryFilter queryVolumeLimit volumeIds clusterID).Cursor.Offset
      ≤ (initialQueryFilter queryVolumeLimit volumeIds clusterID).Cursor.TotalRecords := by
    rw [hc]
  have hall : ∀ rs sk fk,
      ContinuingPrefix volumeManager s0
        (initialQueryFilter queryVolumeLimit volumeIds clusterID) rs sk fk →
      OffsetsInOrder
        (prefixRequests (initialQueryFilter queryVolumeLimit volumeIds clusterID) rs ++ [fk]) :=
    fun rs sk fk hcont => (continuing_offsets volumeManager hresp hcont h0).1
  refine ⟨hall, ?_⟩
  intro fuel w hw
  obtain ⟨rs, sk, fk, hcont, -, hreq, -⟩ :=
    getQueryResultsLoop_returned volumeManager fuel _ _ _ _ _ hw
  rw [hreq]
  simpa using hall rs sk fk hcont

/-- Witness for C20, amended: the walk over the backend that pages through the five
example records issues the offsets 0, 2, 4. -/
theorem getQueryResults_offsets_in_order_witness :
    ∃ w : Walk Unit,
      getQueryResults 2 5 [] "cluster-1" (strictManager exRecords) () = some w
      ∧ OffsetsInOrder w.requests
      ∧ w.requests.map (fun q => q.Cursor.Offset) = [0, 2, 4] :=
  ⟨_, rfl,
    (getQueryResults_offsets_in_order (strictManager exRecords) 2 [] "cluster-1" ()
      (fun s f r s1 h =>
        ⟨le_of_lt (strictManager_response exRecords s s1 f r h).1,
          by
            have h3 := strictManager_response exRecords s s1 f r h
            rw [h3.2.2]
            exact h3.2.1⟩)).2 5 _ rfl,
    by decide⟩

/-! ## The paginated walk: what each request carries -/

theorem continuing_requests {σ : Type} (volumeManager : Manager σ)
    {s sk : σ} {f fk : CnsQueryFilter} {rs : List CnsQueryResult}
    (hcont : ContinuingPrefix volumeManager s f rs sk fk) :
    prefixRequests f rs ++ [fk] = f :: rs.map (fun r => { f with Cursor := r.Cursor }) := by
  induction hcont with
  | done s f => simp [prefixRequests]
  | step hq hne hrest ih =>
    simp only [prefixRequests, List.cons_append, List.map_cons, ih]

/-- C21: the first request of a walk has cursor `{0, queryVolumeLimit}`, the caller's
`volumeIds`, and the cluster scope `[clusterID]`, or no cluster scope when
`clusterID` is empty; in every walk, returned or not, the requests issued are the
first request followed, for each continuing response in turn, by the first
request with its cursor replaced by the cursor of that response, all three
fields as returned. -/
theorem getQueryResults_requests {σ : Type} (volumeManager : Manager σ)
    (queryVolumeLimit : Int) (volumeIds : List CnsVolumeId) (clusterID : String) (s0 : σ) :
    initialQueryFilter queryVolumeLimit volumeIds clusterID
      = { VolumeIds := volumeIds
          ContainerClusterIds := if clusterID ≠ "" then [clusterID] else []
          Cursor := { Offset := 0, Limit := queryVolumeLimit, TotalRecords := 0 } }
    ∧ (∀ rs sk fk,
        ContinuingPrefix volumeManager s0
          (initialQueryFilter queryVolumeLimit volumeIds clusterID) rs sk fk →
        prefixRequests (initialQueryFilter queryVolumeLimit volumeIds clusterID) rs ++ [fk]
          = initialQueryFilter queryVolumeLimit volumeIds clusterID ::
              rs.map (fun r =>
                { initialQueryFilter queryVolumeLimit volumeIds clusterID with
                  Cursor := r.Cursor }))
    ∧ (∀ fuel w,
        getQueryResults queryVolumeLimit fuel volumeIds clusterID volumeManager s0 = some w →
        ∃ rs sk fk,
          ContinuingPrefix volumeManager s0
            (initialQueryFilter queryVolumeLimit volumeIds clusterID) rs sk fk
          ∧ w.requests
              = initialQueryFilter queryVolumeLimit volumeIds clusterID ::
                  rs.map (fun r =>
                    { initialQueryFilter queryVolumeLimit volumeIds clusterID with
                      Cursor := r.Cursor })
          ∧ (w.err = none → w.results.take rs.length = rs)) := by
  refine ⟨?_, ?_, ?_⟩
  · unfold initialQueryFilter
    by_cases h : clusterID = "" <;> simp [h]
  · intro rs sk fk hcont
    exact continuing_requests volumeManager hcont
  · intro fuel w hw
    obtain ⟨rs, sk, fk, hcont, -, hreq, hout⟩ :=
      getQueryResultsLoop_returned volumeManager fuel _ _ _ _ _ hw
    refine ⟨rs, sk, fk, hcont, ?_, ?_⟩
    · rw [hreq, List.nil_append]
      exact continuing_requests volumeManager hcont
    · intro hok
      rcases hout with ⟨r, e, -, -, herr⟩ | ⟨-, hres, -⟩ | ⟨rl, -, -, hres, -⟩
      · rw [hok] at herr
        exact absurd herr (by simp)
      · rw [hres]; simp
      · rw [hres]; simp

/-- Witness for C21: the walk over the five example records with page size 2 and
cluster `cluster-1` issues three requests: the first one, then the first one with
the cursor of the first page, then with the cursor of the second page. -/
theorem getQueryResults_requests_witness :
    ∃ w : Walk Unit,
      getQueryResults 2 5 [{ Id := "vol-0" }] "cluster-1" (pagedManager exRecords) () = some w
      ∧ w.requests
          = [ { VolumeIds := [{ Id := "vol-0" }], ContainerClusterIds := ["cluster-1"],
                Cursor := { Offset := 0, Limit := 2, TotalRecords := 0 } },
              { VolumeIds := [{ Id := "vol-0" }], ContainerClusterIds := ["cluster-1"],
                Cursor := { Offset := 2, Limit := 2, TotalRecords := 5 } },
              { VolumeIds := [{ Id := "vol-0" }], ContainerClusterIds := ["cluster-1"],
                Cursor := { Offset := 4, Limit := 2, TotalRecords := 5 } } ]
      ∧ ∃ rs sk fk,
          ContinuingPrefix (pagedManager exRecords) ()
            (initialQueryFilter 2 [{ Id := "vol-0" }] "cluster-1") rs sk fk
          ∧ w.requests
              = initialQueryFilter 2 [{ Id := "vol-0" }] "cluster-1" ::
                  rs.map (fun r =>
                    { initialQueryFilter 2 [{ Id := "vol-0" }] "cluster-1" with
                      Cursor := r.Cursor })
          ∧ (w.err = none → w.results.take rs.length = rs) :=
  ⟨_, rfl, by decide,
    (getQueryResults_requests (pagedManager exRecords) 2 [{ Id := "vol-0" }] "cluster-1"
      ()).2.2 5 _ rfl⟩

/-! ## The paginated walk: a backend that never ends it -/

theorem getQueryResultsLoop_eq_run {σ : Type} (volumeManager : Manager σ) (fuel : Nat) :
    ∀ (s : σ) (f : CnsQueryFilter) (acc : List CnsQueryResult)
      (issued : List CnsQueryFilter),
      getQueryResultsLoop volumeManager fuel s f acc issued
        = (getQueryResultsRun volumeManager fuel s f acc issued).returned? := by
  induction fuel with
  | zero => intro s f acc issued; rfl
  | succ fuel ih =>
    intro s f acc issued
    unfold getQueryResultsLoop getQueryResultsRun
    rcases hq : volumeManager.QueryVolume s f with ⟨⟨r, e⟩, s1⟩
    cases e with
    | some err => cases r <;> rfl
    | none =>
      cases r with
      | none => rfl
      | some r =>
        by_cases hstop : r.Cursor.Offset = r.Cursor.TotalRecords
        · simp only [hstop, if_true]
          rfl
        · simp only [hstop, if_false]
          exact ih _ _ _ _

theorem getQueryResultsRun_running {σ : Type} (volumeManager : Manager σ)
    (hall : ∀ s f, ∃ r s1, volumeManager.QueryVolume s f = ((some r, none), s1)
      ∧ r.Cursor.Offset ≠ r.Cursor.TotalRecords)
    (n : Nat) :
    ∀ (s : σ) (f : CnsQueryFilter) (acc : List CnsQueryResult)
      (issued : List CnsQueryFilter),
      ∃ rs sk fk, ContinuingPrefix volumeManager s f rs sk fk ∧ rs.length = n
        ∧ getQueryResultsRun volumeManager n s f acc issued
            = .running (issued ++ prefixRequests f rs) (acc ++ rs) fk sk := by
  induction n with
  | zero =>
    intro s f acc issued
    exact ⟨[], s, f, ContinuingPrefix.done s f, rfl, by simp [getQueryResultsRun, prefixRequests]⟩
  | succ n ih =>
    intro s f acc issued
    obtain ⟨r, s1, hq, hne⟩ := hall s f
    obtain ⟨rs, sk, fk, hcont, hlen, hrun⟩ :=
      ih s1 { f with Cursor := r.Cursor } (acc ++ [r]) (issued ++ [f])
    refine ⟨r :: rs, sk, fk, ContinuingPrefix.step hq hne hcont, by simp [hlen], ?_⟩
    unfold getQueryResultsRun
    simp only [hq, hne, if_false]
    rw [hrun]
    simp [prefixRequests]

/-- C22: for every backend, the loop of `getQueryResults` run on `fuel` iterations
returns what the same loop, observed after `fuel` iterations, has returned.
Against a backend whose every response is successful and non-nil with a
returned offset different from its `TotalRecords`, `getQueryResults` does not
return, whatever the number of iterations: after `n` iterations, for every `n`,
the loop is still running, it has issued `n` queries, all answered with
continuing pages, and it stands before its next query; so after `n+1` iterations
it has issued more than `n` queries. -/
theorem getQueryResults_never_returns {σ : Type} (volumeManager : Manager σ)
    (queryVolumeLimit : Int) (volumeIds : List CnsVolumeId) (clusterID : String) (s0 : σ) :
    (∀ fuel,
      getQueryResults queryVolumeLimit fuel volumeIds clusterID volumeManager s0
        = (getQueryResultsTraced queryVolumeLimit fuel volumeIds clusterID volumeManager
            s0).returned?)
    ∧ ((∀ s f, ∃ r s1, volumeManager.QueryVolume s f = ((some r, none), s1)
          ∧ r.Cursor.Offset ≠ r.Cursor.TotalRecords) →
      (∀ fuel,
        getQueryResults queryVolumeLimit fuel volumeIds clusterID volumeManager s0 = none)
      ∧ (∀ n, ∃ rs sk fk,
          ContinuingPrefix volumeManager s0
            (initialQueryFilter queryVolumeLimit volumeIds clusterID) rs sk fk
          ∧ rs.length = n
          ∧ getQueryResultsTraced queryVolumeLimit n volumeIds clusterID volumeManager s0
              = .running
                  (prefixRequests (initialQueryFilter queryVolumeLimit volumeIds clusterID)
                    rs)
                  rs fk sk
          ∧ (prefixRequests (initialQueryFilter queryVolumeLimit volumeIds clusterID)
              rs).length = n)
      ∧ (∀ n, ∃ issued acc f s,
          getQueryResultsTraced queryVolumeLimit (n + 1) volumeIds clusterID volumeManager
              s0
            = .running issued acc f s
          ∧ n < issued.length)) := by
  have hlink : ∀ fuel,
      getQueryResults queryVolumeLimit fuel volumeIds clusterID volumeManager s0
        = (getQueryResultsTraced queryVolumeLimit fuel volumeIds clusterID volumeManager
            s0).returned? :=
    fun fuel => getQueryResultsLoop_eq_run volumeManager fuel _ _ _ _
  refine ⟨hlink, ?_⟩
  intro hall
  have hrun : ∀ n, ∃ rs sk fk,
      ContinuingPrefix volumeManager s0
        (initialQueryFilter queryVolumeLimit volumeIds clusterID) rs sk fk
      ∧ rs.length = n
      ∧ getQueryResultsTraced queryVolumeLimit n volumeIds clusterID volumeManager s0
          = .running
              (prefixRequests (initialQueryFilter queryVolumeLimit volumeIds clusterID) rs)
              rs fk sk
      ∧ (prefixRequests (initialQueryFilter queryVolumeLimit volumeIds clusterID)
          rs).length = n := by
    intro n
    obtain ⟨rs, sk, fk, hcont, hlen, hr⟩ :=
      getQueryResultsRun_running volumeManager hall n s0
        (initialQueryFilter queryVolumeLimit volumeIds clusterID) [] []
    exact ⟨rs, sk, fk, hcont, hlen, by simpa [getQueryResultsTraced] using hr,
      by simp [prefixRequests_length, hlen]⟩
  refine ⟨?_, hrun, ?_⟩
  · intro fuel
    obtain ⟨rs, sk, fk, -, -, hr, -⟩ := hrun fuel
    rw [hlink fuel, hr]
    rfl
  · intro n
    obtain ⟨rs, sk, fk, -, -, hr, hlen⟩ := hrun (n + 1)
    exact ⟨_, _, _, _, hr, by omega⟩

/-- Witness for C22: the backend that always returns offset 0 of 7 keeps the walk
from returning within a thousand iterations, as within any number; after three
iterations the loop has issued three requests, the first with the initial cursor
and the next two with the cursor `{0, 2, 7}` it was given back, and it stands
before a fourth. -/
theorem getQueryResults_never_returns_witness :
    getQueryResults 2 1000 [] "cluster-1" stuckManager () = none
    ∧ (∃ issued acc f s,
        getQueryResultsTraced 2 (3 + 1) [] "cluster-1" stuckManager ()
          = .running issued acc f s
        ∧ 3 < issued.length)
    ∧ getQueryResultsTraced 2 3 [] "cluster-1" stuckManager ()
        = .running
            [ initialQueryFilter 2 [] "cluster-1",
              { initialQueryFilter 2 [] "cluster-1" with
                Cursor := { Offset := 0, Limit := 2, TotalRecords := 7 } },
              { initialQueryFilter 2 [] "cluster-1" with
                Cursor := { Offset := 0, Limit := 2, TotalRecords := 7 } } ]
            [ { Volumes := [], Cursor := { Offset := 0, Limit := 2, TotalRecords := 7 } },
              { Volumes := [], Cursor := { Offset := 0, Limit := 2, TotalRecords := 7 } },
              { Volumes := [], Cursor := { Offset := 0, Limit := 2, TotalRecords := 7 } } ]
            { initialQueryFilter 2 [] "cluster-1" with
              Cursor := { Offset := 0, Limit := 2, TotalRecords := 7 } }
            ()
    ∧ getQueryResults 2 5 [] "cluster-1" (pagedManager exRecords) ()
        = (getQueryResultsTraced 2 5 [] "cluster-1" (pagedManager exRecords) ()).returned? :=
  ⟨((getQueryResults_never_returns stuckManager 2 [] "cluster-1" ()).2
      (fun s _ => ⟨_, s, rfl, by decide⟩)).1 1000,
    ((getQueryResults_never_returns stuckManager 2 [] "cluster-1" ()).2
      (fun s _ => ⟨_, s, rfl, by decide⟩)).2.2 3,
    rfl,
    (getQueryResults_never_returns (pagedManager exRecords) 2 [] "cluster-1" ()).1 5⟩

/-! ## The volume state filters: one filter, two phase sets -/

theorem getPVsInBoundAvailableOrReleased_eq_filter (driverName : String)
    (metadataSyncer : metadataSyncInformer) (allPVs : List PersistentVolume)
    (hlist : metadataSyncer.pvLister.List = (allPVs, none)) :
    getPVsInBoundAvailableOrReleased driverName metadataSyncer
      = (allPVs.filter (fun pv => isDriverCSI driverName pv
            && (pv.Status.Phase == VolumeBound || pv.Status.Phase == VolumeAvailable
                || pv.Status.Phase == VolumeReleased)), none) := by
  unfold getPVsInBoundAvailableOrReleased
  rw [hlist]
  simp only [foldl_select, List.nil_append]

theorem getBoundPVs_eq_filter (driverName : String)
    (metadataSyncer : metadataSyncInformer) (allPVs : List PersistentVolume)
    (hlist : metadataSyncer.pvLister.List = (allPVs, none)) :
    getBoundPVs driverName metadataSyncer
      = (allPVs.filter (fun pv => isDriverCSI driverName pv
            && pv.Status.Phase == VolumeBound), none) := by
  unfold getBoundPVs
  rw [hlist]
  simp only [foldl_select, List.nil_append]

theorem filters_of_failed_listing (driverName : String)
    (metadataSyncer : metadataSyncInformer) (allPVs : List PersistentVolume) (e : GoError)
    (hlist : metadataSyncer.pvLister.List = (allPVs, some e)) :
    getPVsInBoundAvailableOrReleased driverName metadataSyncer = ([], some e)
    ∧ getBoundPVs driverName metadataSyncer = ([], some e) := by
  unfold getPVsInBoundAvailableOrReleased getBoundPVs
  rw [hlist]
  exact ⟨rfl, rfl⟩

/-- C23: the result of `getBoundPVs` is the result of
`getPVsInBoundAvailableOrReleased` restricted to the PVs in phase Bound, in the
same order, hence a sub-list of it, and the two return the same error; on a
listed PV list both are the one filter `filterByPhase`, with the phase sets
`{Bound}` and `{Bound, Available, Released}`. -/
theorem getBoundPVs_restricts_broad (driverName : String)
    (metadataSyncer : metadataSyncInformer) :
    (getBoundPVs driverName metadataSyncer).1
      = (getPVsInBoundAvailableOrReleased driverName metadataSyncer).1.filter
          (fun pv => pv.Status.Phase == VolumeBound)
    ∧ List.Sublist (getBoundPVs driverName metadataSyncer).1
        (getPVsInBoundAvailableOrReleased driverName metadataSyncer).1
    ∧ (getBoundPVs driverName metadataSyncer).2
        = (getPVsInBoundAvailableOrReleased driverName metadataSyncer).2
    ∧ (∀ allPVs, metadataSyncer.pvLister.List = (allPVs, none) →
        getBoundPVs driverName metadataSyncer
          = (filterByPhase driverName [VolumeBound] allPVs, none)
        ∧ getPVsInBoundAvailableOrReleased driverName metadataSyncer
          = (filterByPhase driverName [VolumeBound, VolumeAvailable, VolumeReleased] allPVs,
              none)) := by
  have hrestrict : (getBoundPVs driverName metadataSyncer).1
      = (getPVsInBoundAvailableOrReleased driverName metadataSyncer).1.filter
          (fun pv => pv.Status.Phase == VolumeBound) := by
    rcases hl : metadataSyncer.pvLister.List with ⟨allPVs, err⟩
    cases err with
    | some e =>
      obtain ⟨h1, h2⟩ := filters_of_failed_listing driverName metadataSyncer allPVs e hl
      rw [h1, h2]
      rfl
    | none =>
      rw [getBoundPVs_eq_filter driverName metadataSyncer allPVs hl,
        getPVsInBoundAvailableOrReleased_eq_filter driverName metadataSyncer allPVs hl]
      simp only [List.filter_filter]
      apply List.filter_congr
      intro pv _
      cases isDriverCSI driverName pv <;> cases hb : (pv.Status.Phase == VolumeBound) <;> simp
  refine ⟨hrestrict, ?_, ?_, ?_⟩
  · rw [hrestrict]
    exact List.filter_sublist _
  · rcases hl : metadataSyncer.pvLister.List with ⟨allPVs, err⟩
    cases err with
    | some e =>
      obtain ⟨h1, h2⟩ := filters_of_failed_listing driverName metadataSyncer allPVs e hl
      rw [h1, h2]
    | none =>
      rw [getBoundPVs_eq_filter driverName metadataSyncer allPVs hl,
        getPVsInBoundAvailableOrReleased_eq_filter driverName metadataSyncer allPVs hl]
  · intro allPVs hl
    rw [getBoundPVs_eq_filter driverName metadataSyncer allPVs hl,
      getPVsInBoundAvailableOrReleased_eq_filter driverName metadataSyncer allPVs hl]
    unfold filterByPhase
    refine ⟨?_, ?_⟩
    · congr 1
      apply List.filter_congr
      intro pv _
      simp only [List.contains, List.elem]
      cases (pv.Status.Phase == VolumeBound) <;> rfl
    · congr 1
      apply List.filter_congr
      intro pv _
      simp only [List.contains, List.elem]
      cases (pv.Status.Phase == VolumeBound) <;> cases (pv.Status.Phase == VolumeAvailable)
        <;> cases (pv.Status.Phase == VolumeReleased) <;> rfl

/-- Witness for C23 on the example cache: the narrow result is the broad result
without its Available and Released volumes. -/
theorem getBoundPVs_restricts_broad_witness :
    (getBoundPVs exDriver (exSyncer true)).1
      = (getPVsInBoundAvailableOrReleased exDriver (exSyncer true)).1.filter
          (fun pv => pv.Status.Phase == VolumeBound)
    ∧ (getBoundPVs exDriver (exSyncer true)
          = (filterByPhase exDriver [VolumeBound] exPVs, none)
        ∧ getPVsInBoundAvailableOrReleased exDriver (exSyncer true)
          = (filterByPhase exDriver [VolumeBound, VolumeAvailable, VolumeReleased] exPVs,
              none))
    ∧ (getPVsInBoundAvailableOrReleased exDriver (exSyncer true)).1.map (fun pv => pv.Name)
        = ["pv-bound", "pv-available", "pv-released", "pv-dual"]
    ∧ (getBoundPVs exDriver (exSyncer true)).1.map (fun pv => pv.Name)
        = ["pv-bound", "pv-dual"] :=
  ⟨(getBoundPVs_restricts_broad exDriver (exSyncer true)).1,
    (getBoundPVs_restricts_broad exDriver (exSyncer true)).2.2.2 exPVs rfl,
    by decide, by decide⟩

/-- C26: on a listed PV list, the results of both filters are sub-sequences of the
listing (same relative order), a selected PV occurs in the result as many times
as in the listing, a PV that is not selected does not occur in it, and the
result is not longer than the listing. -/
theorem filters_subsequence (driverName : String)
    (metadataSyncer : metadataSyncInformer) (allPVs : List PersistentVolume)
    (hlist : metadataSyncer.pvLister.List = (allPVs, none)) :
    List.Sublist (getPVsInBoundAvailableOrReleased driverName metadataSyncer).1 allPVs
    ∧ List.Sublist (getBoundPVs driverName metadataSyncer).1 allPVs
    ∧ (∀ pv, pv ∈ (getPVsInBoundAvailableOrReleased driverName metadataSyncer).1 →
        (getPVsInBoundAvailableOrReleased driverName metadataSyncer).1.count pv
          = allPVs.count pv)
    ∧ (∀ pv, pv ∈ (getBoundPVs driverName metadataSyncer).1 →
        (getBoundPVs driverName metadataSyncer).1.count pv = allPVs.count pv)
    ∧ (∀ pv, pv ∉ (getPVsInBoundAvailableOrReleased driverName metadataSyncer).1 →
        (getPVsInBoundAvailableOrReleased driverName metadataSyncer).1.count pv = 0)
    ∧ (∀ pv, pv ∉ (getBoundPVs driverName metadataSyncer).1 →
        (getBoundPVs driverName metadataSyncer).1.count pv = 0)
    ∧ (getPVsInBoundAvailableOrReleased driverName metadataSyncer).1.length ≤ allPVs.length
    ∧ (getBoundPVs driverName metadataSyncer).1.length ≤ allPVs.length := by
  rw [getBoundPVs_eq_filter driverName metadataSyncer allPVs hlist,
    getPVsInBoundAvailableOrReleased_eq_filter driverName metadataSyncer allPVs hlist]
  refine ⟨List.filter_sublist _, List.filter_sublist _, ?_, ?_, ?_, ?_,
    List.length_filter_le _ _, List.length_filter_le _ _⟩
  · intro pv hpv
    exact List.count_filter (List.mem_filter.1 hpv).2
  · intro pv hpv
    exact List.count_filter (List.mem_filter.1 hpv).2
  · intro pv hpv
    exact List.count_eq_zero.2 hpv
  · intro pv hpv
    exact List.count_eq_zero.2 hpv

/-- Witness for C26: a listing in which the Bound volume of the driver occurs
twice, around a Pending one. -/
theorem filters_subsequence_witness :
    List.Sublist
      (getBoundPVs exDriver
        { exSyncer true with
          pvLister := { exPVLister with
            List := ([exPV "pv-bound" (some exDriver) false VolumeBound,
                      exPV "pv-pending" (some exDriver) false VolumePending,
                      exPV "pv-bound" (some exDriver) false VolumeBound], none) } }).1
      [exPV "pv-bound" (some exDriver) false VolumeBound,
        exPV "pv-pending" (some exDriver) false VolumePending,
        exPV "pv-bound" (some exDriver) false VolumeBound]
    ∧ (getBoundPVs exDriver
        { exSyncer true with
          pvLister := { exPVLister with
            List := ([exPV "pv-bound" (some exDriver) false VolumeBound,
                      exPV "pv-pending" (some exDriver) false VolumePending,
                      exPV "pv-bound" (some exDriver) false VolumeBound], none) } }).1
      = [exPV "pv-bound" (some exDriver) false VolumeBound,
          exPV "pv-bound" (some exDriver) false VolumeBound] :=
  ⟨(filters_subsequence exDriver
      { exSyncer true with
        pvLister := { exPVLister with
          List := ([exPV "pv-bound" (some exDriver) false VolumeBound,
                    exPV "pv-pending" (some exDriver) false VolumePending,
                    exPV "pv-bound" (some exDriver) false VolumeBound], none) } }
      [exPV "pv-bound" (some exDriver) false VolumeBound,
        exPV "pv-pending" (some exDriver) false VolumePending,
        exPV "pv-bound" (some exDriver) false VolumeBound] rfl).2.1,
    by decide⟩

/-! ## The validity gate: the decision as the code takes it -/

/-- C24: when both lookups succeed, `IsValidVolume` returns `(true, pv, pvc)` with the
resolved PV and PVC if the migration flag is enabled and the PV is a CSI volume
of this driver or has a `VsphereVolume` source, or the flag is disabled and the
PV has no `VsphereVolume` source; in every other case it returns
`(false, nil, nil)`.  So with migration disabled a PV without `VsphereVolume` is
reported valid whatever its CSI spec. -/
theorem IsValidVolume_decision (driverName : String) (volume : Volume)
    (claim : PersistentVolumeClaimVolumeSource) (pod : Pod)
    (metadataSyncer : metadataSyncInformer)
    (pvc : PersistentVolumeClaim) (pv : PersistentVolume)
    (hclaim : volume.PersistentVolumeClaim = some claim)
    (hpvc : metadataSyncer.pvcLister.Get pod.Namespace claim.ClaimName = (some pvc, none))
    (hpv : metadataSyncer.pvLister.Get pvc.Spec.VolumeName = (some pv, none)) :
    (((metadataSyncer.CSIMigration = true
          ∧ ((∃ csi, pv.Spec.CSI = some csi ∧ csi.Driver = driverName)
              ∨ pv.Spec.VsphereVolume ≠ none))
        ∨ (metadataSyncer.CSIMigration = false ∧ pv.Spec.VsphereVolume = none)) →
      IsValidVolume driverName volume (some pod) metadataSyncer
        = .ok (true, some pv, some pvc))
    ∧ (¬ ((metadataSyncer.CSIMigration = true
          ∧ ((∃ csi, pv.Spec.CSI = some csi ∧ csi.Driver = driverName)
              ∨ pv.Spec.VsphereVolume ≠ none))
        ∨ (metadataSyncer.CSIMigration = false ∧ pv.Spec.VsphereVolume = none)) →
      IsValidVolume driverName volume (some pod) metadataSyncer
        = .ok (false, none, none))
    ∧ (metadataSyncer.CSIMigration = false → pv.Spec.VsphereVolume = none →
      IsValidVolume driverName volume (some pod) metadataSyncer
        = .ok (true, some pv, some pvc)) := by
  have hcsi := isDriverCSI_iff driverName pv
  unfold IsValidVolume
  rw [hclaim]
  simp only [hpvc, hpv]
  cases hd : isDriverCSI driverName pv <;> cases hv : pv.Spec.VsphereVolume
    <;> cases hm : metadataSyncer.CSIMigration
    <;> simp_all

/-- Witness for C24: with migration disabled the volume `pv-nfs`, which has neither
a CSI spec nor a `VsphereVolume` source, is reported valid. -/
theorem IsValidVolume_decision_witness :
    IsValidVolume exDriver (exVolume "claim-nfs") (some exPod) (exSyncer false)
      = .ok (true, some (exPV "pv-nfs" none false VolumeBound),
          some (exPVC "claim-nfs" "pv-nfs")) :=
  (IsValidVolume_decision exDriver (exVolume "claim-nfs") { ClaimName := "claim-nfs" }
    exPod (exSyncer false) (exPVC "claim-nfs" "pv-nfs")
    (exPV "pv-nfs" none false VolumeBound) rfl rfl rfl).1 (Or.inr ⟨rfl, rfl⟩)

/-- C25: if the volume entry has a claim source, the Pod pointer is not nil and each
cache returns an object whenever it returns no error, `IsValidVolume` returns a
result and dereferences no nil pointer; if the volume entry has no claim source,
the read of `volume.PersistentVolumeClaim.ClaimName` is a nil dereference,
whatever the other arguments. -/
theorem IsValidVolume_nil_dereference (driverName : String) (volume : Volume)
    (pod : Option Pod) (metadataSyncer : metadataSyncInformer) :
    (volume.PersistentVolumeClaim ≠ none → pod ≠ none →
      (∀ ns name, (metadataSyncer.pvcLister.Get ns name).2 = none →
        (metadataSyncer.pvcLister.Get ns name).1 ≠ none) →
      (∀ name, (metadataSyncer.pvLister.Get name).2 = none →
        (metadataSyncer.pvLister.Get name).1 ≠ none) →
      ∃ res, IsValidVolume driverName volume pod metadataSyncer = .ok res)
    ∧ (volume.PersistentVolumeClaim = none →
      IsValidVolume driverName volume pod metadataSyncer = .error .nilDereference) := by
  constructor
  · intro hclaim hpod hpvcs hpvs
    unfold IsValidVolume
    cases hc : volume.PersistentVolumeClaim with
    | none => exact absurd hc hclaim
    | some claim =>
      cases pod with
      | none => exact absurd rfl hpod
      | some p =>
        simp only
        have h1 := hpvcs p.Namespace claim.ClaimName
        rcases hg : metadataSyncer.pvcLister.Get p.Namespace claim.ClaimName with ⟨o, e⟩
        rw [hg] at h1
        cases e with
        | some err => cases o <;> exact ⟨_, rfl⟩
        | none =>
          cases o with
          | none => exact absurd rfl (h1 rfl)
          | some pvc =>
            simp only
            have h2 := hpvs pvc.Spec.VolumeName
            rcases hg2 : metadataSyncer.pvLister.Get pvc.Spec.VolumeName with ⟨o2, e2⟩
            rw [hg2] at h2
            cases e2 with
            | some err => cases o2 <;> exact ⟨_, rfl⟩
            | none =>
              cases o2 with
              | none => exact absurd rfl (h2 rfl)
              | some pv =>
                simp only
                split
                · exact ⟨_, rfl⟩
                · split <;> exact ⟨_, rfl⟩
  · intro hclaim
    unfold IsValidVolume
    rw [hclaim]

theorem exPVCLister_object_or_error (ns name : String)
    (h : (exPVCLister.Get ns name).2 = none) : (exPVCLister.Get ns name).1 ≠ none := by
  unfold exPVCLister at h ⊢
  by_cases hns : ns = "ns"
  · cases hl : exClaims.lookup name with
    | none => simp [hns, hl] at h
    | some pvName => simp [hns, hl]
  · simp [hns] at h

theorem exPVLister_object_or_error (name : String)
    (h : (exPVLister.Get name).2 = none) : (exPVLister.Get name).1 ≠ none := by
  unfold exPVLister at h ⊢
  cases hf : exPVs.find? (fun pv => pv.Name == name) with
  | none => simp [hf] at h
  | some pv => simp [hf]

/-- Witness for C25: the example caches return an object whenever they return no
error, so the gate returns a result for the claim volume of the example Pod; for
a volume entry that is not a PVC volume the gate panics. -/
theorem IsValidVolume_nil_dereference_witness :
    (∃ res, IsValidVolume exDriver (exVolume "claim-bound") (some exPod) (exSyncer true)
        = .ok res)
    ∧ IsValidVolume exDriver { Name := "scratch", PersistentVolumeClaim := none }
        (some exPod) (exSyncer true) = .error .nilDereference :=
  ⟨(IsValidVolume_nil_dereference exDriver (exVolume "claim-bound") (some exPod)
      (exSyncer true)).1 (by decide) (by decide)
      (fun ns name h => exPVCLister_object_or_error ns name h)
      (fun name h => exPVLister_object_or_error name h),
    (IsValidVolume_nil_dereference exDriver { Name := "scratch", PersistentVolumeClaim := none }
      (some exPod) (exSyncer true)).2 rfl⟩

/-! ## The cluster ID of the end-to-end harness -/

theorem isPrefixOf_self (l : List Char) : l.isPrefixOf l = true := by
  induction l with
  | nil => rfl
  | cons a l ih => simp [List.isPrefixOf, ih]

theorem removeAllAux_nil (old : List Char) (fuel : Nat) : removeAllAux old fuel [] = [] := by
  cases fuel <;> rfl

theorem removeAllAux_composite (u : List Char) (hu : u ≠ []) :
    ∀ (c : List Char) (fuel : Nat), (c ++ u).length ≤ fuel →
      (∀ i, i < c.length → u.isPrefixOf ((c ++ u).drop i) = false) →
      removeAllAux u fuel (c ++ u) = c := by
  intro c
  induction c with
  | nil =>
    intro fuel hfuel _
    obtain ⟨a, us, rfl⟩ : ∃ a us, u = a :: us := by
      cases u with
      | nil => exact absurd rfl hu
      | cons a us => exact ⟨a, us, rfl⟩
    obtain ⟨f, rfl⟩ : ∃ f, fuel = f + 1 := ⟨fuel - 1, by simp at hfuel; omega⟩
    simp only [List.nil_append, removeAllAux, isPrefixOf_self, if_true, List.drop_length]
    exact removeAllAux_nil _ _
  | cons x cs ih =>
    intro fuel hfuel hfree
    obtain ⟨f, rfl⟩ : ∃ f, fuel = f + 1 := ⟨fuel - 1, by simp at hfuel; omega⟩
    have h0 := hfree 0 (by simp)
    simp only [List.drop_zero] at h0
    simp only [List.cons_append] at h0 hfuel ⊢
    simp only [removeAllAux, h0, Bool.false_eq_true, if_false]
    congr 1
    apply ih f (by simpa using hfuel)
    intro i hi
    have := hfree (i + 1) (by simpa using hi)
    simpa using this

/-- C27, as stated, fails: the UID `0f3a` occurs inside the cluster ID
`cluster-0f3a-` as well, so deleting every occurrence of the UID from the
composite name gives `cluster--`, not the cluster ID. -/
theorem gcClusterID_loses_inner_occurrence :
    gcClusterID ("cluster-0f3a-" ++ "0f3a") "0f3a" = "cluster--"
    ∧ gcClusterID ("cluster-0f3a-" ++ "0f3a") "0f3a" ≠ "cluster-0f3a-" := by
  decide

/-- C27, amended: removing the UID `u` from the composite name `c ++ u` the way the
harness does yields exactly `c` when `u` is empty, and when `u` has no occurrence
in `c ++ u` that starts inside `c`, so that the UID's only occurrence is the
final one. -/
theorem gcClusterID_composite (c u : String)
    (hfree : u = "" ∨
      ∀ i, i < c.data.length → u.data.isPrefixOf ((c.data ++ u.data).drop i) = false) :
    gcClusterID (c ++ u) u = c := by
  unfold gcClusterID stringsRemoveAll
  by_cases hu : u = ""
  · subst hu
    simp
  · rcases hfree with h | h
    · exact absurd h hu
    · have hdata : u.data ≠ [] := by
        intro h0
        apply hu
        cases u
        simp_all
      simp only [hu, if_false, String.data_append]
      rw [removeAllAux_composite u.data hdata c.data _ (le_refl _) h]

/-- Witness for C27, amended: a cluster ID in which the UID does not occur. -/
theorem gcClusterID_composite_witness :
    gcClusterID ("tkg-cluster-1-" ++ "7d5f2c1e") "7d5f2c1e" = "tkg-cluster-1-" :=
  gcClusterID_composite "tkg-cluster-1-" "7d5f2c1e" (Or.inr (by decide))

end Syncer
